import Mathlib

set_option maxRecDepth 400000
set_option maxHeartbeats 2000000

/-!
# Verification of the bank-export synchronization core

A shallow embedding, in Lean 4, of the core logic of a bank-movements
downloader and Actual-Budget synchronizer:

* `actual_sync.py` — the sync engine (`sync_csv_to_actual`,
  `generate_imported_id`, `parse_csv_date`, `parse_amount`,
  `get_account_by_name`), with the external ledger client (connection,
  transaction creation, commit) abstracted as an environment of fallible
  steps;
* `banks/ing.py` — the PIN partial-disclosure segment (`get_pin_digits`,
  `get_pin_positions`, and the digit-submission loop of `run`);
* `webui.py` — the `IbercajaScheduler` (with its `threading.Lock`
  modelled explicitly, including the blocking behaviour of acquiring a
  non-reentrant lock twice from the same thread), `AppState`, and the
  scheduler branch of `handle_ibercaja_action`.

Python exceptions are modelled with `Except String`: a `.error e` result
of a step or of a whole function is an exception (with message `e`)
propagating out of it.  Machine-level hashing (`hashlib.sha256`) is
implemented bit-faithfully over `Nat` words reduced mod `2^32`.
-/

namespace BankSync

/-! ## SHA-256 (`hashlib.sha256(...).hexdigest()`)

A faithful implementation of FIPS 180-4 SHA-256 over byte lists, with
words as `Nat` reduced mod `2^32`, and of UTF-8 encoding of strings
(Python's `str.encode()`). -/

/-- Reduce a word mod `2^32`. -/
def w32 (n : Nat) : Nat := n % 4294967296

/-- Right rotation of a 32-bit word. -/
def rotr (n x : Nat) : Nat := w32 ((x >>> n) ||| (x <<< (32 - n)))

/-- FIPS 180-4 small sigma 0. -/
def ssig0 (x : Nat) : Nat := (rotr 7 x) ^^^ (rotr 18 x) ^^^ (x >>> 3)

/-- FIPS 180-4 small sigma 1. -/
def ssig1 (x : Nat) : Nat := (rotr 17 x) ^^^ (rotr 19 x) ^^^ (x >>> 10)

/-- FIPS 180-4 big Sigma 0. -/
def bsig0 (x : Nat) : Nat := (rotr 2 x) ^^^ (rotr 13 x) ^^^ (rotr 22 x)

/-- FIPS 180-4 big Sigma 1. -/
def bsig1 (x : Nat) : Nat := (rotr 6 x) ^^^ (rotr 11 x) ^^^ (rotr 25 x)

/-- FIPS 180-4 Ch. -/
def chF (x y z : Nat) : Nat := (x &&& y) ^^^ ((x ^^^ 4294967295) &&& z)

/-- FIPS 180-4 Maj. -/
def majF (x y z : Nat) : Nat := (x &&& y) ^^^ (x &&& z) ^^^ (y &&& z)

/-- The 64 SHA-256 round constants. -/
def sha256K : List Nat :=
  [1116352408, 1899447441, 3049323471, 3921009573, 961987163, 1508970993,
   2453635748, 2870763221, 3624381080, 310598401, 607225278, 1426881987,
   1925078388, 2162078206, 2614888103, 3248222580, 3835390401, 4022224774,
   264347078, 604807628, 770255983, 1249150122, 1555081692, 1996064986,
   2554220882, 2821834349, 2952996808, 3210313671, 3336571891, 3584528711,
   113926993, 338241895, 666307205, 773529912, 1294757372, 1396182291,
   1695183700, 1986661051, 2177026350, 2456956037, 2730485921, 2820302411,
   3259730800, 3345764771, 3516065817, 3600352804, 4094571909, 275423344,
   430227734, 506948616, 659060556, 883997877, 958139571, 1322822218,
   1537002063, 1747873779, 1955562222, 2024104815, 2227730452, 2361852424,
   2428436474, 2756734187, 3204031479, 3329325298]

/-- The SHA-256 initial hash value. -/
def sha256H0 : List Nat :=
  [1779033703, 3144134277, 1013904242, 2773480762,
   1359893119, 2600822924, 528734635, 1541459225]

/-- Message-schedule extension: extend 16 words to 64 words. -/
def schedExtend (fuel : Nat) (ws : List Nat) : List Nat :=
  match fuel with
  | 0 => ws
  | fuel + 1 =>
    let t := ws.length
    let next := w32 (ssig1 (ws.getD (t - 2) 0) + ws.getD (t - 7) 0 +
                     ssig0 (ws.getD (t - 15) 0) + ws.getD (t - 16) 0)
    schedExtend fuel (ws ++ [next])

/-- Working state of the compression function. -/
structure Sha8 where
  a : Nat
  b : Nat
  c : Nat
  d : Nat
  e : Nat
  f : Nat
  g : Nat
  h : Nat

/-- One SHA-256 round. -/
def sha256Round (st : Sha8) (kw : Nat × Nat) : Sha8 :=
  let t1 := w32 (st.h + bsig1 st.e + chF st.e st.f st.g + kw.1 + kw.2)
  let t2 := w32 (bsig0 st.a + majF st.a st.b st.c)
  ⟨w32 (t1 + t2), st.a, st.b, st.c, w32 (st.d + t1), st.e, st.f, st.g⟩

/-- Compress one 512-bit block (16 words) into the running hash (8 words). -/
def sha256Block (hs : List Nat) (block : List Nat) : List Nat :=
  let ws := schedExtend 48 block
  let st0 : Sha8 := ⟨hs.getD 0 0, hs.getD 1 0, hs.getD 2 0, hs.getD 3 0,
                     hs.getD 4 0, hs.getD 5 0, hs.getD 6 0, hs.getD 7 0⟩
  let st := (sha256K.zip ws).foldl sha256Round st0
  [w32 (hs.getD 0 0 + st.a), w32 (hs.getD 1 0 + st.b), w32 (hs.getD 2 0 + st.c),
   w32 (hs.getD 3 0 + st.d), w32 (hs.getD 4 0 + st.e), w32 (hs.getD 5 0 + st.f),
   w32 (hs.getD 6 0 + st.g), w32 (hs.getD 7 0 + st.h)]

/-- SHA-256 padding of a byte message: append `0x80`, zero bytes, and the
bit length as 8 big-endian bytes, to a multiple of 64 bytes. -/
def sha256Pad (msg : List Nat) : List Nat :=
  let len := msg.length
  let zeros := (55 + 64 - len % 64) % 64
  let bitLen := len * 8
  msg ++ [0x80] ++ List.replicate zeros 0 ++
    [w32 (bitLen >>> 56) % 256, (bitLen >>> 48) % 256, (bitLen >>> 40) % 256,
     (bitLen >>> 32) % 256, (bitLen >>> 24) % 256, (bitLen >>> 16) % 256,
     (bitLen >>> 8) % 256, bitLen % 256]

/-- Group 4 bytes (big-endian) into one word, recursively over the list. -/
def bytesToWords : List Nat → List Nat
  | b0 :: b1 :: b2 :: b3 :: rest => (b0 <<< 24 ||| b1 <<< 16 ||| b2 <<< 8 ||| b3) :: bytesToWords rest
  | _ => []

/-- Split a word list into blocks of 16 words (the fuel, at least the list
length, only bounds the recursion). -/
def toBlocksAux : Nat → List Nat → List (List Nat)
  | 0, _ => []
  | _, [] => []
  | fuel + 1, x :: xs => (x :: xs).take 16 :: toBlocksAux fuel ((x :: xs).drop 16)

/-- Split a word list into blocks of 16 words. -/
def toBlocks (l : List Nat) : List (List Nat) := toBlocksAux l.length l

/-- The SHA-256 digest of a byte message, as 8 words. -/
def sha256Words (msg : List Nat) : List Nat :=
  (toBlocks (bytesToWords (sha256Pad msg))).foldl sha256Block sha256H0

/-- The hex character of a nibble (lowercase, as `hexdigest` emits). -/
def nibbleChar (n : Nat) : Char :=
  if n < 10 then Char.ofNat (48 + n) else Char.ofNat (87 + n)

/-- The 8 lowercase hex characters of a 32-bit word. -/
def wordHexChars (w : Nat) : List Char :=
  [nibbleChar ((w >>> 28) % 16), nibbleChar ((w >>> 24) % 16),
   nibbleChar ((w >>> 20) % 16), nibbleChar ((w >>> 16) % 16),
   nibbleChar ((w >>> 12) % 16), nibbleChar ((w >>> 8) % 16),
   nibbleChar ((w >>> 4) % 16), nibbleChar (w % 16)]

/-- UTF-8 encoding of one character (Python `str.encode()`). -/
def utf8Bytes (c : Char) : List Nat :=
  let n := c.toNat
  if n < 0x80 then [n]
  else if n < 0x800 then
    [0xC0 ||| (n >>> 6), 0x80 ||| (n &&& 0x3F)]
  else if n < 0x10000 then
    [0xE0 ||| (n >>> 12), 0x80 ||| ((n >>> 6) &&& 0x3F), 0x80 ||| (n &&& 0x3F)]
  else
    [0xF0 ||| (n >>> 18), 0x80 ||| ((n >>> 12) &&& 0x3F),
     0x80 ||| ((n >>> 6) &&& 0x3F), 0x80 ||| (n &&& 0x3F)]

/-- The UTF-8 bytes of a string (Python `s.encode()`). -/
def strBytes (s : String) : List Nat := (s.data.map utf8Bytes).flatten

/-- `hashlib.sha256(s.encode()).hexdigest()`: the 64-character lowercase
hex digest of the UTF-8 encoding of `s`. -/
def sha256hex (s : String) : String :=
  String.mk ((sha256Words (strBytes s)).map wordHexChars).flatten

/-! ## Python string helpers -/

/-- Python character slicing `s[:n]` (first `n` characters). -/
def pyTake (s : String) (n : Nat) : String := String.mk (s.data.take n)

/-- ASCII whitespace (the whitespace occurring in the strings this program
strips; `str.strip()` und `Decimal` strip it at both ends). -/
def isPyWs (c : Char) : Bool :=
  c == ' ' || c == '\t' || c == '\n' || c == '\r' || c == '\x0b' || c == '\x0c'

/-- Python `str.strip()`: drop whitespace at both ends. -/
def pyStrip (s : String) : String :=
  String.mk (((s.data.dropWhile isPyWs).reverse.dropWhile isPyWs).reverse)

/-- Python `str.split(sep)` for a one-character separator. -/
def pySplit (s : String) (sep : Char) : List String :=
  (s.data.splitOn sep).map String.mk

/-- Does the second list start with the first? -/
def listStartsWith : List Char → List Char → Bool
  | [], _ => true
  | _ :: _, [] => false
  | p :: ps, c :: cs => p == c && listStartsWith ps cs

/-- Replace every (non-overlapping, leftmost-first) occurrence of the
non-empty pattern, recursively over the characters; the fuel only bounds
the recursion. -/
def pyReplaceAux (pat rep : List Char) : Nat → List Char → List Char
  | 0, l => l
  | _ + 1, [] => []
  | fuel + 1, c :: cs =>
    if listStartsWith pat (c :: cs) then rep ++ pyReplaceAux pat rep fuel ((c :: cs).drop pat.length)
    else c :: pyReplaceAux pat rep fuel cs

/-- Python `s.replace(pat, rep)` for a non-empty pattern. -/
def pyReplace (s pat rep : String) : String :=
  String.mk (pyReplaceAux pat.data rep.data s.data.length s.data)

/-- Python repr of a list of strings, e.g. `['Fecha Oper', 'Concepto']`
(as produced by an f-string interpolating a list). -/
def pyStrList (l : List String) : String :=
  "[" ++ String.intercalate ", " (l.map (fun s => "\x27" ++ s ++ "\x27")) ++ "]"

/-- Truthiness of an optional string (`None` and `""` are falsy). -/
def truthyStr : Option String → Bool
  | some s => !s.isEmpty
  | none => false

/-- Python dict insertion `d[k] = v` on an ordered association list:
overwrite in place if the key exists, else append. -/
def dictSet (d : List (String × String)) (k v : String) : List (String × String) :=
  if (d.lookup k).isSome then d.map (fun p => if p.1 == k then (k, v) else p)
  else d ++ [(k, v)]

/-! ## The sync engine (`actual_sync.py`)

The rows of the CSV are modelled after `pandas` has parsed the file: each
field carries the string Python renders for the cell in an f-string (so a
numeric `Importe` cell appears as e.g. `"-12.5"`).  A cell that `pandas`
read as NaN (empty cell) is `none` in the optional fields — `pd.notna`
is false for it, and an f-string renders it as `"nan"`.  `nOrden` is
`none` when the CSV has no `Nº Orden` column (`row.get` then yields the
`'?'` default). -/

/-- One data row of the parsed CSV. -/
structure Row where
  fechaOper : String
  concepto : Option String
  descripcion : Option String
  importe : String
  saldo : String
  nOrden : Option String
deriving DecidableEq

/-- f-string rendering of a cell that may be NaN (`float("nan")` renders
as `"nan"`). -/
def cellStr : Option String → String
  | some s => s
  | none => "nan"

/-- The `unique_str` built inside `generate_imported_id`:
`f"{source}|{row['Fecha Oper']}|{row['Concepto']}|{row['Descripción']}|{row['Importe']}|{row['Saldo']}"`. -/
def unique_str (row : Row) (source : String) : String :=
  source ++ "|" ++ row.fechaOper ++ "|" ++ cellStr row.concepto ++ "|" ++
    cellStr row.descripcion ++ "|" ++ row.importe ++ "|" ++ row.saldo

/-- `generate_imported_id`: truncated SHA-256 of the `|`-joined fields:
`hashlib.sha256(unique_str.encode()).hexdigest()[:32]`. -/
def generate_imported_id (row : Row) (source : String) : String :=
  pyTake (sha256hex (unique_str row source)) 32

/-- A Gregorian calendar date (the payload of `datetime.strptime`). -/
structure PyDate where
  year : Nat
  month : Nat
  day : Nat
deriving DecidableEq

/-- Gregorian leap-year rule. -/
def isLeapYear (y : Nat) : Bool := y % 4 == 0 && (y % 100 != 0 || y % 400 == 0)

/-- Days in a month. -/
def daysInMonth (y m : Nat) : Nat :=
  if m == 2 then (if isLeapYear y then 29 else 28)
  else if m == 4 || m == 6 || m == 9 || m == 11 then 30
  else 31

/-- The `ValueError` message of a `strptime` format mismatch. -/
def strptimeErrorMsg (s : String) : String :=
  "time data \x27" ++ s ++ "\x27 does not match format \x27%d-%m-%Y\x27"

/-- Are all characters ASCII digits? -/
def allDigits (cs : List Char) : Bool := cs.all (·.isDigit)

/-- The value of an ASCII digit string. -/
def digitsToNat (cs : List Char) : Nat := cs.foldl (fun a c => a * 10 + (c.toNat - 48)) 0

/-- `parse_csv_date`: `datetime.strptime(date_str, "%d-%m-%Y")`.  `strptime`
tokenizes `%d` as 1–2 digits valued 1–31, `%m` as 1–2 digits valued 1–12,
`%Y` as 1–4 digits, separated by literal dashes; a tokenization failure
raises the format-mismatch `ValueError`, and a day past the month's end
raises `ValueError("day is out of range for month")`. -/
def parse_csv_date (date_str : String) : Except String PyDate :=
  match pySplit date_str '-' with
  | [d, m, y] =>
    if allDigits d.data && allDigits m.data && allDigits y.data &&
       decide (1 ≤ d.length) && decide (d.length ≤ 2) &&
       decide (1 ≤ m.length) && decide (m.length ≤ 2) &&
       decide (1 ≤ y.length) && decide (y.length ≤ 4) &&
       decide (1 ≤ digitsToNat d.data) && decide (digitsToNat d.data ≤ 31) &&
       decide (1 ≤ digitsToNat m.data) && decide (digitsToNat m.data ≤ 12) &&
       decide (1 ≤ digitsToNat y.data) then
      if digitsToNat d.data ≤ daysInMonth (digitsToNat y.data) (digitsToNat m.data) then
        .ok ⟨digitsToNat y.data, digitsToNat m.data, digitsToNat d.data⟩
      else .error "day is out of range for month"
    else .error (strptimeErrorMsg date_str)
  | _ => .error (strptimeErrorMsg date_str)

/-- The `str()` of the `decimal.InvalidOperation` raised by `Decimal` on a
malformed literal. -/
def decimalErrorMsg : String := "[<class \x27decimal.ConversionSyntax\x27>]"

/-- Split a character list at the first `e`/`E` (exponent marker). -/
def splitExpMarker : List Char → List Char × Option (List Char)
  | [] => ([], none)
  | c :: t =>
    if c == 'e' || c == 'E' then ([], some t)
    else
      let (m, e) := splitExpMarker t
      (c :: m, e)

/-- Parse a signed ASCII integer (exponent part of a decimal literal). -/
def parseSignedInt : List Char → Option Int
  | '+' :: t => if t ≠ [] && allDigits t then some (digitsToNat t) else none
  | '-' :: t => if t ≠ [] && allDigits t then some (-(digitsToNat t : Int)) else none
  | t => if t ≠ [] && allDigits t then some (digitsToNat t) else none

/-- Parse the unsigned mantissa `digits[.digits]` of a decimal literal,
as (joined digits, fractional length). -/
def parseMantissa (cs : List Char) : Option (Nat × Nat) :=
  match cs.splitOn '.' with
  | [ip] => if ip ≠ [] && allDigits ip then some (digitsToNat ip, 0) else none
  | [ip, fp] =>
    if (ip ≠ [] || fp ≠ []) && allDigits ip && allDigits fp then
      some (digitsToNat (ip ++ fp), fp.length)
    else none
  | _ => none

/-- The exact value a `decimal.Decimal` carries: a signed coefficient and
a power-of-ten exponent (`Decimal('1.5')` is `15 × 10⁻¹`). -/
structure PyDecimal where
  mantissa : Int
  exponent : Int
deriving DecidableEq

/-- `parse_amount`: `Decimal(str(amount))` on a finite numeric literal
(optional surrounding whitespace, optional sign, digits with at most one
point, optional exponent); the special `NaN`/`Infinity` payloads do not
occur in the numeric CSV columns and are not modelled. -/
def parse_amount (amount : String) : Except String PyDecimal :=
  let cs := (pyStrip amount).data
  let (sgn, body) : Int × List Char :=
    match cs with
    | '+' :: t => (1, t)
    | '-' :: t => (-1, t)
    | t => (1, t)
  let (mant, expPart) := splitExpMarker body
  let exp : Option Int :=
    match expPart with
    | none => some 0
    | some e => parseSignedInt e
  match parseMantissa mant, exp with
  | some (m, fracLen), some e => .ok ⟨sgn * (m : Int), e - (fracLen : Int)⟩
  | _, _ => .error decimalErrorMsg

/-- An account of the ledger (`get_accounts` element). -/
structure Account where
  name : String
  aid : Nat
deriving DecidableEq

/-- `get_account_by_name`: first account whose name matches, else `None`. -/
def get_account_by_name (accounts : List Account) (account_name : String) : Option Account :=
  accounts.find? (fun a => a.name == account_name)

/-- An existing ledger transaction as seen by `get_transactions` (only its
`financial_id` is consulted). -/
structure LedgerTx where
  financial_id : Option String
deriving DecidableEq

/-- A transaction object returned by `create_transaction` (opaque to the
engine; identified by a token). -/
structure Transaction where
  tid : Nat
deriving DecidableEq

/-- The arguments `sync_csv_to_actual` passes to `create_transaction`. -/
structure CreateArgs where
  date : PyDate
  account : Account
  payee : Option String
  notes : Option String
  amount : PyDecimal
  imported_id : String
  cleared : Bool
deriving DecidableEq

/-- `DEFAULT_ACCOUNT_MAPPING`. -/
def DEFAULT_ACCOUNT_MAPPING : List (String × String) :=
  [("ibercaja", "Ibercaja común"), ("ing_nomina", "ING Nómina"), ("ing_naranja", "ING Naranja")]

/-- The head of `sync_csv_to_actual`: `account_name` if truthy, else the
(`account_mapping or DEFAULT_ACCOUNT_MAPPING`) lookup for `source`. -/
def resolve_account_name (account_name : Option String)
    (account_mapping : Option (List (String × String))) (source : String) : Option String :=
  if truthyStr account_name then account_name
  else
    let mapping := match account_mapping with
      | some m => if m.isEmpty then DEFAULT_ACCOUNT_MAPPING else m
      | none => DEFAULT_ACCOUNT_MAPPING
    mapping.lookup source

/-- `required_cols` of `sync_csv_to_actual`. -/
def required_cols : List String := ["Fecha Oper", "Concepto", "Descripción", "Importe"]

/-- The parsed CSV: its column names and its data rows. -/
structure Csv where
  columns : List String
  rows : List Row
deriving DecidableEq

/-- The environment of external effects consumed by `sync_csv_to_actual`:
file-system probe, `pd.read_csv`, the two ledger connections, the ledger
queries, the `create_transaction` oracle and the commit.  A `.error e`
value is a Python exception with message `e` raised by that step. -/
structure SyncEnv where
  csvExists : Bool
  readCsv : Except String Csv
  listUserFiles : Except String Unit
  openBudget : Except String Unit
  accounts : List Account
  transactions : List LedgerTx
  create : CreateArgs → Except String Transaction
  commit : Except String Unit

/-- `existing_ids`: the truthy `financial_id`s of the existing transactions
(`{t.financial_id for t in existing_txs if t.financial_id}`). -/
def existingIdsOf (env : SyncEnv) : List String :=
  env.transactions.filterMap (fun t => t.financial_id.filter (fun s => !s.isEmpty))

/-- The body of the per-row `try` after the duplicate check: parse the date
and the amount, build payee (concept truncated to 50 chars, `None` on NaN)
and notes, and call `create_transaction` with `cleared=True`. -/
def row_create (create : CreateArgs → Except String Transaction) (account : Account)
    (row : Row) (imported_id : String) : Except String Transaction := do
  let tx_date ← parse_csv_date row.fechaOper
  let amount ← parse_amount row.importe
  let payee_name := row.concepto.map (fun s => pyTake s 50)
  let notes := row.descripcion
  create ⟨tx_date, account, payee_name, notes, amount, imported_id, true⟩

/-- One entry of the `errors` list: `f"Row {row.get('Nº Orden', '?')}: {str(e)[:50]}"`. -/
def rowErrorEntry (row : Row) (e : String) : String :=
  "Row " ++ row.nOrden.getD "?" ++ ": " ++ pyTake e 50

/-- Outcome of one iteration of the import loop. -/
inductive RowOutcome where
  | dup : RowOutcome
  | created : Transaction → RowOutcome
  | failed : String → RowOutcome
deriving DecidableEq

/-- Classify one row of the import loop.  `hasSaldo` records whether the
CSV has a `Saldo` column — `Saldo` is not among `required_cols`, and its
absence makes `generate_imported_id` raise `KeyError('Saldo')`, caught by
the per-row handler. -/
def classifyRow (create : CreateArgs → Except String Transaction) (account : Account)
    (source : String) (existing_ids : List String) (hasSaldo : Bool) (row : Row) : RowOutcome :=
  if !hasSaldo then .failed (rowErrorEntry row "\x27Saldo\x27")
  else
    let imported_id := generate_imported_id row source
    if existing_ids.contains imported_id then .dup
    else
      match row_create create account row imported_id with
      | .ok tx => .created tx
      | .error e => .failed (rowErrorEntry row e)

/-- Accumulator of the import loop. -/
structure LoopState where
  imported : Nat
  skipped : Nat
  errors : List String
  new_transactions : List Transaction
deriving DecidableEq

/-- One iteration of `for _, row in df.iterrows()`. -/
def processRow (create : CreateArgs → Except String Transaction) (account : Account)
    (source : String) (existing_ids : List String) (hasSaldo : Bool)
    (st : LoopState) (row : Row) : LoopState :=
  match classifyRow create account source existing_ids hasSaldo row with
  | .dup => { st with skipped := st.skipped + 1 }
  | .created tx =>
    { st with imported := st.imported + 1, new_transactions := st.new_transactions ++ [tx] }
  | .failed msg => { st with errors := st.errors ++ [msg] }

/-- The whole per-row import loop of `sync_csv_to_actual`.  Note that
`existing_ids` is fixed before the loop and never extended inside it. -/
def importLoop (create : CreateArgs → Except String Transaction) (account : Account)
    (source : String) (existing_ids : List String) (hasSaldo : Bool)
    (rows : List Row) : LoopState :=
  rows.foldl (processRow create account source existing_ids hasSaldo) ⟨0, 0, [], []⟩

/-- `SyncResult` (the dataclass; `__post_init__` turns `errors=None`
into `[]`, rendered by the default). -/
structure SyncResult where
  success : Bool
  imported : Nat := 0
  skipped : Nat := 0
  errors : List String := []
  message : String := ""
deriving DecidableEq

/-- `sync_csv_to_actual`.  The result is `.error e` when a Python exception
with message `e` escapes the function — which happens exactly when
`pd.read_csv` raises, since that call sits before the `try` — and
`.ok (result, rulesInput)` otherwise.  `rulesInput` instruments which
transactions the categorization rule loop ran over (the rule loop mutates
only those transactions and affects no field of the result). -/
def sync_csv_to_actual (env : SyncEnv) (csv_path source : String)
    (account_name : Option String) (account_mapping : Option (List (String × String))) :
    Except String (SyncResult × List Transaction) :=
  let an := resolve_account_name account_name account_mapping source
  if !truthyStr an then
    .ok ({ success := false,
           message := "No account name provided and no mapping found for source: " ++ source }, [])
  else
    let accName := an.getD ""
    if !env.csvExists then
      .ok ({ success := false, message := "CSV file not found: " ++ csv_path }, [])
    else
      match env.readCsv with
      | .error e => .error e
      | .ok csv =>
        let missing_cols := required_cols.filter (fun c => !csv.columns.contains c)
        if !missing_cols.isEmpty then
          .ok ({ success := false,
                 message := "CSV missing required columns: " ++ pyStrList missing_cols ++
                   ". Found: " ++ pyStrList csv.columns }, [])
        else
          match env.listUserFiles with
          | .error e => .ok ({ success := false, message := "Connection error: " ++ e }, [])
          | .ok () =>
          match env.openBudget with
          | .error e => .ok ({ success := false, message := "Connection error: " ++ e }, [])
          | .ok () =>
          match get_account_by_name env.accounts accName with
          | none =>
            .ok ({ success := false,
                   message := "Account \x27" ++ accName ++ "\x27 not found in Actual Budget" }, [])
          | some account =>
            let st := importLoop env.create account source (existingIdsOf env)
              (csv.columns.contains "Saldo") csv.rows
            match env.commit with
            | .error e =>
              .ok ({ success := false, message := "Connection error: " ++ e }, st.new_transactions)
            | .ok () =>
              .ok ({ success := true, imported := st.imported, skipped := st.skipped,
                     errors := st.errors,
                     message := "Synced to \x27" ++ accName ++ "\x27: " ++ toString st.imported ++
                       " imported, " ++ toString st.skipped ++ " skipped" }, st.new_transactions)

/-! ## The ING PIN partial-disclosure segment (`banks/ing.py`)

The UI operator (`getpass`, patched by the web UI) is an oracle
`ui : String → String` from the prompt shown to the string typed back. -/

/-- `get_pin_digits`: build the `"PIN_DIGITS:pos1,pos2,pos3:"` prompt, ask
the UI, and strip the answer. -/
def get_pin_digits (ui : String → String) (positions : List Nat) : String :=
  let positions_str := String.intercalate "," (positions.map toString)
  let prompt := "PIN_DIGITS:" ++ positions_str ++ ":"
  pyStrip (ui prompt)

/-- Accumulate the maximal digit runs of a character list
(`re.findall(r'\d+', text)`), carrying the value of the current run. -/
def findDigitRuns : List Char → Option Nat → List Nat
  | [], none => []
  | [], some n => [n]
  | c :: cs, none =>
    if c.isDigit then findDigitRuns cs (some (c.toNat - 48)) else findDigitRuns cs none
  | c :: cs, some n =>
    if c.isDigit then findDigitRuns cs (some (n * 10 + (c.toNat - 48)))
    else n :: findDigitRuns cs none

/-- `get_pin_positions`: `[int(n) for n in re.findall(r'\d+', text)][:3]`. -/
def get_pin_positions (text : String) : List Nat := (findDigitRuns text.data none).take 3

/-- The digit-entry segment of `run` (`banks/ing.py`): request the disclosed
digits for the announced positions, then click the numpad button for each
character of the disclosed string, in order.  The returned list is the exact
ordered sequence of digits submitted to the portal; the code performs no
validation of the disclosed string's length against `positions`. -/
def submit_pin_digits (ui : String → String) (positions : List Nat) : List Char :=
  (get_pin_digits ui positions).data

/-! ## The scheduler and its web handlers (`webui.py`) -/

/-- `IbercajaScheduler.INTERVALS`. -/
def INTERVALS : List (String × Nat) :=
  [("1h", 3600), ("3h", 10800), ("6h", 21600), ("12h", 43200), ("24h", 86400)]

/-- The observable state of an `IbercajaScheduler` instance together with
the set of armed `threading.Timer`s.  `lockHeld` models `self._lock` — a
non-reentrant `threading.Lock` — being held by the thread whose execution
is being traced; `pending` holds the identities of armed (not yet fired,
not cancelled) timers, and `nextTimerId` supplies fresh identities.
Timestamps are abstract ticks. -/
structure SchedState where
  enabled : Bool
  interval_key : Option String
  timer : Option Nat
  last_run : Option Nat
  next_run : Option Nat
  last_result : Option String
  lockHeld : Bool
  pending : List Nat
  nextTimerId : Nat
deriving DecidableEq

/-- The freshly constructed scheduler (`IbercajaScheduler.__init__`). -/
def initialScheduler : SchedState :=
  { enabled := false, interval_key := none, timer := none, last_run := none,
    next_run := none, last_result := none, lockHeld := false, pending := [], nextTimerId := 0 }

/-- Entering `with self._lock:`.  Acquiring a non-reentrant
`threading.Lock` that the executing thread already holds blocks forever;
`.error ()` is that stuck state — the call never returns. -/
def acquireLock (s : SchedState) : Except Unit SchedState :=
  if s.lockHeld then .error () else .ok { s with lockHeld := true }

/-- Leaving `with self._lock:`. -/
def releaseLock (s : SchedState) : SchedState := { s with lockHeld := false }

/-- `IbercajaScheduler.stop`: under the lock, disable, clear the interval
and `next_run`, and cancel the pending timer if any. -/
def sched_stop (s : SchedState) : Except Unit SchedState := do
  let s ← acquireLock s
  let s := { s with enabled := false, interval_key := none, next_run := none }
  let s :=
    match s.timer with
    | some t => { s with pending := s.pending.erase t, timer := none }
    | none => s
  .ok (releaseLock s)

/-- `IbercajaScheduler._schedule_next` (takes no lock itself): if enabled
with an interval, set `next_run` and arm a fresh `threading.Timer`.  The
`INTERVALS` lookup cannot miss, since only validated keys are stored. -/
def sched_schedule_next (now : Nat) (s : SchedState) : SchedState :=
  if !s.enabled then s
  else
    match s.interval_key with
    | none => s
    | some key =>
      match INTERVALS.lookup key with
      | none => s
      | some secs =>
        { s with next_run := some (now + secs),
                 timer := some s.nextTimerId,
                 pending := s.pending ++ [s.nextTimerId],
                 nextTimerId := s.nextTimerId + 1 }

/-- `IbercajaScheduler.start`, as executed by the calling thread.  The
boolean is its return value; `.error ()` means the call never returns.
With `run_now = True` the immediate run happens on a separate spawned
thread (not traced here); otherwise `_schedule_next` runs inline. -/
def sched_start (now : Nat) (s : SchedState) (interval_key : String) (run_now : Bool) :
    Except Unit (SchedState × Bool) := do
  if (INTERVALS.lookup interval_key).isNone then
    return (s, false)
  let s ← acquireLock s
  let s ← sched_stop s
  let s := { s with enabled := true, interval_key := some interval_key }
  let s := if run_now then s else sched_schedule_next now s
  return (releaseLock s, true)

/-- The external effects of one scheduled Ibercaja run, as consumed by
`IbercajaScheduler._execute_sync`: the prerequisite checks on the global
`state`, the browser download (`ibercaja.run`, which may raise), the
`get_latest_csv` probe, and the outcome of `sync_csv_to_actual` (which may
itself raise, see `sync_csv_to_actual`). -/
structure AutoRunEnv where
  hasIbercajaCreds : Bool
  hasActualCreds : Bool
  hasMapping : Bool
  download : Except String Unit
  latestCsv : Bool
  syncOutcome : Except String SyncResult

/-- `IbercajaScheduler._execute_sync`.  Total by construction: the
enclosing `try/except Exception` converts any exception raised inside the
run into the string `f"ERROR: {str(e)}"`. -/
def sched_execute_sync (env : AutoRunEnv) : String :=
  if !env.hasIbercajaCreds then "ERROR: No Ibercaja credentials stored"
  else if !env.hasActualCreds then "ERROR: No Actual Budget credentials stored"
  else if !env.hasMapping then "ERROR: No sync mapping configured"
  else
    match env.download with
    | .error e => "ERROR: " ++ e
    | .ok () =>
      if !env.latestCsv then "ERROR: No CSV found after download"
      else
        match env.syncOutcome with
        | .error e => "ERROR: " ++ e
        | .ok result =>
          if result.success then
            "OK: " ++ toString result.imported ++ " imported, " ++
              toString result.skipped ++ " skipped"
          else "ERROR: " ++ result.message

/-- `IbercajaScheduler._run_and_schedule`, as executed by the timer thread
(or the spawned run-now thread), which holds no lock at entry: record
`last_run` and `last_result`, then under the lock re-arm the next tick if
still enabled.  `.error ()` means the thread blocks forever. -/
def sched_run_and_schedule (now : Nat) (env : AutoRunEnv) (s : SchedState) :
    Except Unit SchedState := do
  if !s.enabled then
    return s
  let s := { s with last_run := some now, last_result := some (sched_execute_sync env) }
  let s ← acquireLock s
  let s := if s.enabled then sched_schedule_next now s else s
  return releaseLock s

/-- The slice of the global `AppState` consulted by the scheduler branch of
`handle_ibercaja_action` and mutated by `save_mapping`. -/
structure AppState where
  ibercaja_codigo : Option String
  ibercaja_clave : Option String
  actual_password : Option String
  file_mappings : List (String × String)
  account_mappings_saved : List (String × String)
  encryption_passwords : List (String × String)
deriving DecidableEq

/-- `AppState.has_ibercaja_credentials` (`is not None` on both fields). -/
def has_ibercaja_credentials (st : AppState) : Bool :=
  st.ibercaja_codigo.isSome && st.ibercaja_clave.isSome

/-- `AppState.has_actual_credentials`. -/
def has_actual_credentials (st : AppState) : Bool := st.actual_password.isSome

/-- `AppState.has_saved_mapping`: key present in both mapping dicts. -/
def has_saved_mapping (st : AppState) (source : String) : Bool :=
  (st.file_mappings.lookup source).isSome && (st.account_mappings_saved.lookup source).isSome

/-- `AppState.save_mapping`: record file and account for the source, and
the encryption password for the file when truthy. -/
def save_mapping (st : AppState) (source file_name account_name : String)
    (encryption_password : Option String) : AppState :=
  { st with
    file_mappings := dictSet st.file_mappings source file_name,
    account_mappings_saved := dictSet st.account_mappings_saved source account_name,
    encryption_passwords :=
      match encryption_password with
      | some e => if !e.isEmpty then dictSet st.encryption_passwords file_name e
                  else st.encryption_passwords
      | none => st.encryption_passwords }

/-- Outcome of the scheduler-interval branch of `handle_ibercaja_action`. -/
inductive SchedStartOutcome where
  | errorMsg : String → SchedStartOutcome
  | started : String → SchedStartOutcome
  | invalidInterval : String → SchedStartOutcome
  | blocked : SchedStartOutcome
deriving DecidableEq

/-- The final `elif action.startswith('sched_')` branch of
`handle_ibercaja_action` (interval actions; `sched_stop` and
`sched_run_now` are dispatched by earlier branches): check the three
prerequisites — each failure prints its `[ERROR]` line and returns with
no timer armed — then call `ibercaja_scheduler.start(interval,
run_now=True)`.  `.blocked` means the handler never returns (stuck inside
`start`). -/
def handle_sched_interval (st : AppState) (sched : SchedState) (now : Nat) (action : String) :
    SchedStartOutcome × SchedState :=
  let interval := pyReplace action "sched_" ""
  if !has_ibercaja_credentials st then
    (.errorMsg "[ERROR] Store Ibercaja credentials first (run download once)", sched)
  else if !has_actual_credentials st then
    (.errorMsg "[ERROR] Store Actual Budget password first (run sync once)", sched)
  else if !has_saved_mapping st "ibercaja" then
    (.errorMsg "[ERROR] Configure sync mapping first (run sync once)", sched)
  else
    match sched_start now sched interval true with
    | .error () => (.blocked, sched)
    | .ok (s, true) => (.started ("[SCHEDULER] Auto-sync enabled: every " ++ interval), s)
    | .ok (s, false) => (.invalidInterval ("[ERROR] Invalid interval: " ++ interval), s)

/-- Equality of modelled Python outcomes is decidable. -/
instance {ε α : Type} [DecidableEq ε] [DecidableEq α] : DecidableEq (Except ε α) := fun x y =>
  match x, y with
  | .ok a, .ok b =>
    if h : a = b then isTrue (by rw [h]) else isFalse (fun he => by cases he; exact h rfl)
  | .error a, .error b =>
    if h : a = b then isTrue (by rw [h]) else isFalse (fun he => by cases he; exact h rfl)
  | .ok _, .error _ => isFalse (fun he => by cases he)
  | .error _, .ok _ => isFalse (fun he => by cases he)

/-! ## Derived observations on the import loop -/

/-- The transaction created for a row, when one was. -/
def outcomeTx? : RowOutcome → Option Transaction
  | .created tx => some tx
  | _ => none

/-- The error entry recorded for a row, when one was. -/
def outcomeErr? : RowOutcome → Option String
  | .failed m => some m
  | _ => none

/-- Was the row skipped as a duplicate? -/
def outcomeIsDup : RowOutcome → Bool
  | .dup => true
  | _ => false

/-- The transactions created by a run of the import loop, in row order. -/
def newTransactionsOf (create : CreateArgs → Except String Transaction) (account : Account)
    (source : String) (existing_ids : List String) (hasSaldo : Bool) (rows : List Row) :
    List Transaction :=
  rows.filterMap (fun r => outcomeTx? (classifyRow create account source existing_ids hasSaldo r))

/-- The fingerprints tagged onto the transactions created by a run of the
run of the import loop (the `imported_id`s that reached `create_transaction`
successfully). -/
def createdFingerprints (create : CreateArgs → Except String Transaction) (account : Account)
    (source : String) (existing_ids : List String) (hasSaldo : Bool) (rows : List Row) :
    List String :=
  rows.filterMap (fun r =>
    match classifyRow create account source existing_ids hasSaldo r with
    | .created _ => some (generate_imported_id r source)
    | _ => none)

/-- The conditions under which `sync_csv_to_actual` reaches its success
branch: CSV present and readable, required columns present, both ledger
connections up, target account found, commit succeeding. -/
def envPathOk (env : SyncEnv) (accName : String) (csv : Csv) (account : Account) : Prop :=
  env.csvExists = true ∧
  env.readCsv = .ok csv ∧
  required_cols.all (fun c => csv.columns.contains c) = true ∧
  env.listUserFiles = .ok () ∧
  env.openBudget = .ok () ∧
  get_account_by_name env.accounts accName = some account ∧
  env.commit = .ok ()

/-! ## Concrete instances

Concrete rows, CSVs and environments at which the claims are evaluated.
Fingerprint string literals below are the values of `generate_imported_id`
at the corresponding rows (pinned by `decide`/`rfl` proofs further down). -/

/-- A row of an Ibercaja-format CSV with all cells present. -/
def mkStdRow (n fecha conc desc imp sal : String) : Row :=
  ⟨fecha, some conc, some desc, imp, sal, some n⟩

/-- The column list of the Ibercaja-format CSV. -/
def stdColumns : List String :=
  ["Nº Orden", "Fecha Oper", "Fecha Valor", "Concepto", "Descripción", "Referencia",
   "Importe", "Saldo"]

/-- The target account used by the concrete runs. -/
def demoAccount : Account := ⟨"Ibercaja común", 1⟩

/-- A row whose `Fecha Oper` cell does not parse as `%d-%m-%Y`. -/
def badDateRow : Row := mkStdRow "1" "not-a-date" "PAGO" "LM GETAFE MADRID" "1.0" "100.0"

/-- The error entry the import loop records for `badDateRow` (the
`strptime` message truncated to 50 characters). -/
def badDateEntry : String :=
  "Row 1: time data \x27not-a-date\x27 does not match format \x27%d-%"

/-- A one-row CSV whose single row fails to import on every run. -/
def c1Csv : Csv := ⟨stdColumns, [badDateRow]⟩

/-- A fully healthy environment over `c1Csv` with an empty ledger. -/
def c1Env : SyncEnv :=
  { csvExists := true, readCsv := .ok c1Csv, listUserFiles := .ok (), openBudget := .ok (),
    accounts := [demoAccount], transactions := [], create := fun _ => .ok ⟨100⟩,
    commit := .ok () }

/-- First well-formed row of the two-row idempotence CSV. -/
def w1Row : Row := mkStdRow "1" "05-03-2024" "NOMINA" "EMPRESA SA" "1500.0" "2500.0"

/-- Second well-formed row of the two-row idempotence CSV. -/
def w2Row : Row := mkStdRow "2" "06-03-2024" "RECIBO" "LUZ" "-60.25" "2439.75"

/-- The two-row CSV for the idempotence witness. -/
def wCsv : Csv := ⟨stdColumns, [w1Row, w2Row]⟩

/-- `generate_imported_id w1Row "ibercaja"`. -/
def w1Fp : String := "ab3f8df7cd784f265a49eed340502c38"

/-- `generate_imported_id w2Row "ibercaja"`. -/
def w2Fp : String := "b1e8bfbd7d3b06a8b77118e34eb56a1c"

/-- First-run environment over `wCsv`: empty ledger, creation succeeding. -/
def wEnv1 : SyncEnv :=
  { csvExists := true, readCsv := .ok wCsv, listUserFiles := .ok (), openBudget := .ok (),
    accounts := [demoAccount], transactions := [], create := fun _ => .ok ⟨7⟩,
    commit := .ok () }

/-- Second-run environment over `wCsv`: the ledger now holds exactly the
fingerprints created by the first run. -/
def wEnv2 : SyncEnv :=
  { wEnv1 with transactions := [⟨some w1Fp⟩, ⟨some w2Fp⟩] }

/-- Rows differing only in `Nº Orden` (not part of the fingerprint). -/
def detRowA : Row := mkStdRow "1" "01-02-2024" "TARJETA VISA" "LM GETAFE MADRID" "-12.5" "100.0"

/-- Rows differing only in `Nº Orden` (not part of the fingerprint). -/
def detRowB : Row := mkStdRow "2" "01-02-2024" "TARJETA VISA" "LM GETAFE MADRID" "-12.5" "100.0"

/-- A row differing from `detRowA` in the amount. -/
def detRowC : Row := mkStdRow "1" "01-02-2024" "TARJETA VISA" "LM GETAFE MADRID" "-13.5" "100.0"

/-- A row whose `Concepto` cell contains the `|` separator. -/
def pipeRowA : Row := mkStdRow "1" "01-02-2024" "a|b" "c" "1.0" "2.0"

/-- A row differing from `pipeRowA` in both `Concepto` and `Descripción`
but with the same `|`-joined `unique_str`. -/
def pipeRowB : Row := mkStdRow "1" "01-02-2024" "a" "b|c" "1.0" "2.0"

/-- An environment where the CSV file exists but `pd.read_csv` raises. -/
def c3Env : SyncEnv :=
  { csvExists := true,
    readCsv := .error "Error tokenizing data. C error: EOF inside string starting at row 3",
    listUserFiles := .ok (), openBudget := .ok (), accounts := [demoAccount],
    transactions := [], create := fun _ => .ok ⟨0⟩, commit := .ok () }

/-- A UI operator answering every prompt with `"472"`. -/
def ui472 : String → String := fun _ => "472"

/-- A UI operator answering every prompt with `"47"` (one digit short of
the three announced positions). -/
def ui47 : String → String := fun _ => "47"

/-- The ten rows of the mixed-batch CSV. -/
def c6Rows : List Row :=
  [mkStdRow "1" "01-03-2024" "CONCEPTO 1" "DESC 1" "-1.0" "99.0",
   mkStdRow "2" "02-03-2024" "CONCEPTO 2" "DESC 2" "-2.0" "98.0",
   mkStdRow "3" "03-03-2024" "CONCEPTO 3" "DESC 3" "-3.0" "97.0",
   mkStdRow "4" "04-03-2024" "CONCEPTO 4" "DESC 4" "-4.0" "96.0",
   mkStdRow "5" "05-03-2024" "CONCEPTO 5" "DESC 5" "-5.0" "95.0",
   mkStdRow "6" "06-03-2024" "CONCEPTO 6" "DESC 6" "-6.0" "94.0",
   mkStdRow "7" "07-03-2024" "CONCEPTO 7" "DESC 7" "-7.0" "93.0",
   mkStdRow "8" "08-03-2024" "CONCEPTO 8" "DESC 8" "-8.0" "92.0",
   mkStdRow "9" "09-03-2024" "CONCEPTO 9" "DESC 9" "-9.0" "91.0",
   mkStdRow "10" "10-03-2024" "CONCEPTO 10" "DESC 10" "-10.0" "90.0"]

/-- The fingerprints of `c6Rows` under source `"ibercaja"`, in row order. -/
def c6Fps : List String :=
  ["d47822421097ddc59a5be20c1eff3109", "156bfe6c144ce026675d86f77cc41404",
   "80b56635e5ed7bd708860e7e732c9752", "509bc6e90e18e16e7c8bcb8901b590b3",
   "17ad7e6e770123af10e7c9be4e9d92a2", "12612a0f61fc5069bba0453a0c2aeb2a",
   "c8238715e2a5a896a9fd3039a5c15b9e", "0a60ed6d288436f9550185ea92d3e834",
   "6a05cec476507920897b6bedabf0cc47", "decac5328758b181ff52ab2cc4ff671b"]

/-- The mixed-batch CSV. -/
def c6Csv : Csv := ⟨stdColumns, c6Rows⟩

/-- The fingerprint of the ninth row (the one made to fail in the
second mixed-batch scenario). -/
def c6BadFp : String := "6a05cec476507920897b6bedabf0cc47"

/-- Mixed-batch environment: the ledger already holds the fingerprints of
the first seven rows; creation succeeds for every new row. -/
def c6Env : SyncEnv :=
  { csvExists := true, readCsv := .ok c6Csv, listUserFiles := .ok (), openBudget := .ok (),
    accounts := [demoAccount],
    transactions := (c6Fps.take 7).map (fun f => ⟨some f⟩),
    create := fun _ => .ok ⟨1⟩, commit := .ok () }

/-- An alternative `create_transaction` oracle that raises for the ninth
row's fingerprint and succeeds for every other row. -/
def c6CreateB : CreateArgs → Except String Transaction := fun args =>
  if args.imported_id == c6BadFp then .error "Invalid field in row" else .ok ⟨2⟩

/-- The three-row CSV of the accounting witness (two importable rows and
one failing row). -/
def c10Csv : Csv :=
  ⟨stdColumns,
   [mkStdRow "1" "01-04-2024" "PAGO" "SUPER" "-10.0" "90.0",
    mkStdRow "2" "02-04-2024" "PAGO" "GASOLINA" "-30.0" "60.0",
    mkStdRow "3" "not-a-date" "PAGO" "X" "-1.0" "59.0"]⟩

/-- A healthy environment over `c10Csv` with an empty ledger. -/
def c10Env : SyncEnv :=
  { csvExists := true, readCsv := .ok c10Csv, listUserFiles := .ok (), openBudget := .ok (),
    accounts := [demoAccount], transactions := [], create := fun _ => .ok ⟨42⟩,
    commit := .ok () }

/-- The result of the first run over `wCsv` (both rows imported). -/
def wRun1Result : SyncResult :=
  { success := true, imported := 2, skipped := 0, errors := [],
    message := "Synced to \x27Ibercaja común\x27: 2 imported, 0 skipped" }

/-- The error entry recorded for the third row of `c10Csv`. -/
def c10Row3Err : String :=
  "Row 3: time data \x27not-a-date\x27 does not match format \x27%d-%"

/-- The result of the run over `c10Csv`. -/
def c10Result : SyncResult :=
  { success := true, imported := 2, skipped := 0, errors := [c10Row3Err],
    message := "Synced to \x27Ibercaja común\x27: 2 imported, 0 skipped" }

/-- The ninth mixed-batch row (made to fail in the second scenario). -/
def c6Row9 : Row := mkStdRow "9" "09-03-2024" "CONCEPTO 9" "DESC 9" "-9.0" "91.0"

/-- An `AppState` holding scheduler credentials but nothing else. -/
def c8BaseState : AppState :=
  { ibercaja_codigo := some "user", ibercaja_clave := some "key",
    actual_password := some "secret", file_mappings := [],
    account_mappings_saved := [], encryption_passwords := [] }

/-- `c8BaseState` after `save_mapping('ibercaja', 'Budget', 'Ibercaja común')`. -/
def c8MappedState : AppState :=
  save_mapping c8BaseState "ibercaja" "Budget" "Ibercaja común" none

/-- A scheduler state as seen by a timer thread entering
`_run_and_schedule`: enabled at the 3h interval, lock free, the fired
timer no longer pending. -/
def c9State : SchedState :=
  { enabled := true, interval_key := some "3h", timer := some 0, last_run := none,
    next_run := none, last_result := none, lockHeld := false, pending := [],
    nextTimerId := 1 }

/-- A scheduled-run environment whose browser download step raises. -/
def c9Env : AutoRunEnv :=
  { hasIbercajaCreds := true, hasActualCreds := true, hasMapping := true,
    download := .error "Page.goto: Timeout 30000ms exceeded.", latestCsv := true,
    syncOutcome := .ok { success := true } }

/-! ## Sanity of the hash implementation -/

/-- FIPS 180-4 test vector: the SHA-256 implementation agrees with
`hashlib.sha256` on `"abc"`. -/
theorem sha256hex_abc :
    sha256hex "abc" = "ba7816bf8f01cfea414140de5dae2223b00361a396177a9cb410ff61f20015ad" := by
  decide

/-! ## Helper lemmas -/

/-- Appending preserves positivity of string length. -/
theorem length_append_pos (s t : String) (h : 0 < s.length) : 0 < (s ++ t).length := by
  rw [String.length_append]
  omega

/-- The import loop as a fold, characterized pointwise by `classifyRow`. -/
theorem foldl_processRow (create : CreateArgs → Except String Transaction) (account : Account)
    (source : String) (existing_ids : List String) (hasSaldo : Bool)
    (rows : List Row) (st : LoopState) :
    rows.foldl (processRow create account source existing_ids hasSaldo) st =
      { imported := st.imported +
          (rows.filterMap
            (fun r => outcomeTx? (classifyRow create account source existing_ids hasSaldo r))).length,
        skipped := st.skipped +
          rows.countP (fun r => outcomeIsDup (classifyRow create account source existing_ids hasSaldo r)),
        errors := st.errors ++
          rows.filterMap
            (fun r => outcomeErr? (classifyRow create account source existing_ids hasSaldo r)),
        new_transactions := st.new_transactions ++
          rows.filterMap
            (fun r => outcomeTx? (classifyRow create account source existing_ids hasSaldo r)) } := by
  induction rows generalizing st with
  | nil => simp
  | cons r rs ih =>
    rw [List.foldl_cons, ih]
    cases h : classifyRow create account source existing_ids hasSaldo r <;>
      simp [processRow, h, outcomeTx?, outcomeErr?, outcomeIsDup, List.filterMap_cons,
        List.countP_cons] <;>
      omega

/-- `importLoop` in closed form. -/
theorem importLoop_eq (create : CreateArgs → Except String Transaction) (account : Account)
    (source : String) (existing_ids : List String) (hasSaldo : Bool) (rows : List Row) :
    importLoop create account source existing_ids hasSaldo rows =
      { imported :=
          (rows.filterMap
            (fun r => outcomeTx? (classifyRow create account source existing_ids hasSaldo r))).length,
        skipped :=
          rows.countP (fun r => outcomeIsDup (classifyRow create account source existing_ids hasSaldo r)),
        errors :=
          rows.filterMap
            (fun r => outcomeErr? (classifyRow create account source existing_ids hasSaldo r)),
        new_transactions :=
          rows.filterMap
            (fun r => outcomeTx? (classifyRow create account source existing_ids hasSaldo r)) } := by
  rw [importLoop, foldl_processRow]
  simp

/-- `outcomeTx?` on each constructor. -/
theorem outcomeTx?_dup : outcomeTx? .dup = none := rfl

/-- `outcomeTx?` on each constructor. -/
theorem outcomeTx?_created (tx : Transaction) : outcomeTx? (.created tx) = some tx := rfl

/-- `outcomeTx?` on each constructor. -/
theorem outcomeTx?_failed (m : String) : outcomeTx? (.failed m) = none := rfl

/-- `outcomeErr?` on each constructor. -/
theorem outcomeErr?_dup : outcomeErr? .dup = none := rfl

/-- `outcomeErr?` on each constructor. -/
theorem outcomeErr?_created (tx : Transaction) : outcomeErr? (.created tx) = none := rfl

/-- `outcomeErr?` on each constructor. -/
theorem outcomeErr?_failed (m : String) : outcomeErr? (.failed m) = some m := rfl

/-- `outcomeIsDup` on each constructor. -/
theorem outcomeIsDup_dup : outcomeIsDup .dup = true := rfl

/-- `outcomeIsDup` on each constructor. -/
theorem outcomeIsDup_created (tx : Transaction) : outcomeIsDup (.created tx) = false := rfl

/-- `outcomeIsDup` on each constructor. -/
theorem outcomeIsDup_failed (m : String) : outcomeIsDup (.failed m) = false := rfl

/-- Every row outcome contributes to exactly one of the three loop
aggregates: the sum of the created count, the duplicate count and the
error count is the row count. -/
theorem outcome_partition (cls : Row → RowOutcome) (rows : List Row) :
    (rows.filterMap (fun r => outcomeTx? (cls r))).length +
      rows.countP (fun r => outcomeIsDup (cls r)) +
      (rows.filterMap (fun r => outcomeErr? (cls r))).length = rows.length := by
  induction rows with
  | nil => simp
  | cons r rs ih =>
    cases h : cls r <;>
      simp [List.filterMap_cons, List.countP_cons, h,
        outcomeTx?_dup, outcomeTx?_created, outcomeTx?_failed,
        outcomeErr?_dup, outcomeErr?_created, outcomeErr?_failed,
        outcomeIsDup_dup, outcomeIsDup_created, outcomeIsDup_failed] <;>
      omega

/-- `sync_csv_to_actual` on the success path: the result is assembled from
the import loop. -/
theorem sync_path (env : SyncEnv) (csv_path source : String) (account_name : Option String)
    (account_mapping : Option (List (String × String))) (accName : String) (csv : Csv)
    (account : Account)
    (hres : resolve_account_name account_name account_mapping source = some accName)
    (hne : accName ≠ "")
    (hpath : envPathOk env accName csv account) :
    sync_csv_to_actual env csv_path source account_name account_mapping =
      (let st := importLoop env.create account source (existingIdsOf env)
        (csv.columns.contains "Saldo") csv.rows
      .ok ({ success := true, imported := st.imported, skipped := st.skipped,
             errors := st.errors,
             message := "Synced to \x27" ++ accName ++ "\x27: " ++ toString st.imported ++
               " imported, " ++ toString st.skipped ++ " skipped" }, st.new_transactions)) := by
  obtain ⟨h1, h2, h3, h4, h5, h6, h7⟩ := hpath
  have hAccEmpty : accName.isEmpty = false := by
    cases he : accName.isEmpty
    · rfl
    · exact absurd ((String.isEmpty_iff accName).mp he) hne
  have hmc : required_cols.filter (fun c => !csv.columns.contains c) = [] := by
    rw [List.filter_eq_nil_iff]
    intro c hc
    rw [List.all_eq_true] at h3
    simpa using h3 c hc
  simp [sync_csv_to_actual, hres, truthyStr, hAccEmpty, h1, h2, hmc, h4, h5, h6, h7]
  intro x hx
  rw [List.all_eq_true] at h3
  simpa using h3 x hx

/-- One compression step keeps the running hash at 8 words. -/
theorem sha256Block_length (hs block : List Nat) : (sha256Block hs block).length = 8 := by
  simp [sha256Block]

/-- The SHA-256 digest is 8 words. -/
theorem sha256Words_length (msg : List Nat) : (sha256Words msg).length = 8 := by
  unfold sha256Words
  generalize toBlocks (bytesToWords (sha256Pad msg)) = bs
  have h : ∀ (l : List (List Nat)) (hs : List Nat), hs.length = 8 →
      (l.foldl sha256Block hs).length = 8 := by
    intro l
    induction l with
    | nil => intro hs h; simpa using h
    | cons b bs ih => intro hs h; exact ih _ (sha256Block_length hs b)
  exact h bs sha256H0 (by decide)

/-- A word renders as 8 hex characters. -/
theorem wordHexChars_length (w : Nat) : (wordHexChars w).length = 8 := by
  simp [wordHexChars]

/-- The hex digest of an 8-word hash has 64 characters. -/
theorem sha256hex_data_length (s : String) : (sha256hex s).data.length = 64 := by
  unfold sha256hex
  have h : ∀ ws : List Nat, ((ws.map wordHexChars).flatten).length = 8 * ws.length := by
    intro ws
    induction ws with
    | nil => simp
    | cons w t ih => simp [List.flatten_cons, ih, wordHexChars_length]; ring
  show ((sha256Words (strBytes s)).map wordHexChars).flatten.length = 64
  rw [h, sha256Words_length]

/-- A nibble renders inside the lowercase hex alphabet. -/
theorem nibbleChar_mem_hex (n : Nat) (h : n < 16) :
    nibbleChar n ∈ ("0123456789abcdef" : String).data := by
  interval_cases n <;> decide

/-- Every character of a rendered word is a lowercase hex digit. -/
theorem wordHexChars_mem_hex (w : Nat) (c : Char) (hc : c ∈ wordHexChars w) :
    c ∈ ("0123456789abcdef" : String).data := by
  simp only [wordHexChars, List.mem_cons, List.not_mem_nil, or_false] at hc
  rcases hc with h | h | h | h | h | h | h | h <;>
    exact h ▸ nibbleChar_mem_hex _ (Nat.mod_lt _ (by decide))

/-- Every character of the hex digest is a lowercase hex digit. -/
theorem sha256hex_mem_hex (s : String) (c : Char) (hc : c ∈ (sha256hex s).data) :
    c ∈ ("0123456789abcdef" : String).data := by
  unfold sha256hex at hc
  rw [List.mem_flatten] at hc
  obtain ⟨l, hl, hcl⟩ := hc
  rw [List.mem_map] at hl
  obtain ⟨w, _, rfl⟩ := hl
  exact wordHexChars_mem_hex w c hcl

/-- The characters of a Python slice are the prefix of the characters. -/
theorem pyTake_data (u : String) (n : Nat) : (pyTake u n).data = u.data.take n := rfl

/-- `generate_imported_id` unfolded one step. -/
theorem generate_imported_id_eq (r : Row) (s : String) :
    generate_imported_id r s = pyTake (sha256hex (unique_str r s)) 32 := rfl

/-- The length of a Python slice. -/
theorem pyTake_length (u : String) (n : Nat) : (pyTake u n).length = min n u.data.length := by
  show (String.mk (u.data.take n)).length = min n u.data.length
  rw [String.length_mk, List.length_take]

/-- A `filterMap` that hits `some` on every element is a `map`. -/
theorem filterMap_congr_map {α β : Type} (f : α → Option β) (g : α → β) (l : List α)
    (h : ∀ a ∈ l, f a = some (g a)) : l.filterMap f = l.map g := by
  induction l with
  | nil => rfl
  | cons a t ih =>
    rw [List.filterMap_cons, h a (by simp), List.map_cons,
      ih (fun x hx => h x (by simp [hx]))]

/-- On the success path, the fields of the result and the rule-input trace
are the fields of the import loop. -/
theorem sync_path_fields (env : SyncEnv) (csv_path source : String)
    (account_name : Option String) (account_mapping : Option (List (String × String)))
    (accName : String) (csv : Csv) (account : Account) (r : SyncResult) (t : List Transaction)
    (hres : resolve_account_name account_name account_mapping source = some accName)
    (hne : accName ≠ "")
    (hpath : envPathOk env accName csv account)
    (hrun : sync_csv_to_actual env csv_path source account_name account_mapping = .ok (r, t)) :
    r.success = true ∧
    r.imported = (importLoop env.create account source (existingIdsOf env)
      (csv.columns.contains "Saldo") csv.rows).imported ∧
    r.skipped = (importLoop env.create account source (existingIdsOf env)
      (csv.columns.contains "Saldo") csv.rows).skipped ∧
    r.errors = (importLoop env.create account source (existingIdsOf env)
      (csv.columns.contains "Saldo") csv.rows).errors ∧
    t = (importLoop env.create account source (existingIdsOf env)
      (csv.columns.contains "Saldo") csv.rows).new_transactions := by
  rw [sync_path env csv_path source account_name account_mapping accName csv account
    hres hne hpath] at hrun
  simp only [] at hrun
  injection hrun with h
  injection h with h1 h2
  subst h2
  subst h1
  exact ⟨rfl, rfl, rfl, rfl, rfl⟩

/-- Inversion: a successful `sync_csv_to_actual` run pins the resolved
account, a found account, a successful commit, and result fields equal to
the import loop's. -/
theorem sync_success_inv (env : SyncEnv) (csv_path source : String)
    (account_name : Option String) (account_mapping : Option (List (String × String)))
    (csv : Csv) (r : SyncResult) (t : List Transaction)
    (hread : env.readCsv = .ok csv)
    (hrun : sync_csv_to_actual env csv_path source account_name account_mapping = .ok (r, t))
    (hs : r.success = true) :
    ∃ accName account,
      resolve_account_name account_name account_mapping source = some accName ∧
      get_account_by_name env.accounts accName = some account ∧
      env.commit = .ok () ∧
      r.imported = (importLoop env.create account source (existingIdsOf env)
        (csv.columns.contains "Saldo") csv.rows).imported ∧
      r.skipped = (importLoop env.create account source (existingIdsOf env)
        (csv.columns.contains "Saldo") csv.rows).skipped ∧
      r.errors = (importLoop env.create account source (existingIdsOf env)
        (csv.columns.contains "Saldo") csv.rows).errors ∧
      t = (importLoop env.create account source (existingIdsOf env)
        (csv.columns.contains "Saldo") csv.rows).new_transactions := by
  unfold sync_csv_to_actual at hrun
  simp only [hread] at hrun
  split at hrun
  · exfalso; injection hrun with h; injection h with h1 h2; subst h1; simp at hs
  next hTruthy =>
  split at hrun
  · exfalso; injection hrun with h; injection h with h1 h2; subst h1; simp at hs
  next hCsv =>
  split at hrun
  · exfalso; injection hrun with h; injection h with h1 h2; subst h1; simp at hs
  next hCols =>
  split at hrun
  · exfalso; injection hrun with h; injection h with h1 h2; subst h1; simp at hs
  next uLF heqLF =>
  split at hrun
  · exfalso; injection hrun with h; injection h with h1 h2; subst h1; simp at hs
  next uOB heqOB =>
  split at hrun
  · exfalso; injection hrun with h; injection h with h1 h2; subst h1; simp at hs
  next account heqAcc =>
  split at hrun
  · exfalso; injection hrun with h; injection h with h1 h2; subst h1; simp at hs
  next uC heqC =>
  injection hrun with h
  injection h with h1 h2
  subst h2
  subst h1
  have hT : truthyStr (resolve_account_name account_name account_mapping source) = true := by
    revert hTruthy
    cases truthyStr (resolve_account_name account_name account_mapping source) <;> simp
  cases hres : resolve_account_name account_name account_mapping source with
  | none => rw [hres] at hT; simp [truthyStr] at hT
  | some a =>
    rw [hres, Option.getD_some] at heqAcc
    exact ⟨a, account, rfl, heqAcc, heqC, rfl, rfl, rfl, rfl⟩

/-- In `l.zip (l.map f)` every pair satisfies `f p.1 = p.2`. -/
theorem zip_map_self {α β : Type} (f : α → β) (l : List α) :
    ∀ p ∈ l.zip (l.map f), f p.1 = p.2 := by
  induction l with
  | nil => intro p hp; simp at hp
  | cons a t ih =>
    intro p hp
    rw [List.map_cons, List.zip_cons_cons] at hp
    rcases List.mem_cons.mp hp with h | h
    · rw [h]
    · exact ih p h


/-- `List.contains` in terms of membership. -/
theorem mem_of_containsEq {l : List String} {x : String} (h : l.contains x = true) : x ∈ l :=
  List.elem_iff.mp h

/-- Negative `List.contains` in terms of membership. -/
theorem not_mem_of_containsEq {l : List String} {x : String} (h : l.contains x = false) :
    x ∉ l := fun hx => by
  have hxx : l.contains x = true := List.elem_iff.mpr hx
  rw [hxx] at h
  cases h

/-- A predicate and its negation count every element once. -/
theorem countP_not_add {α : Type} (p : α → Bool) (l : List α) :
    l.countP p + l.countP (fun a => !p a) = l.length := by
  induction l with
  | nil => rfl
  | cons a t ih => cases h : p a <;> simp [List.countP_cons, h] <;> omega

/-- `countP` over a cons whose head satisfies the predicate. -/
theorem countP_cons_true {α : Type} (q : α → Bool) (l : List α) (a : α) (h : q a = true) :
    (a :: l).countP q = l.countP q + 1 := by
  rw [List.countP_cons, h]
  rfl

/-- `countP` over a cons whose head fails the predicate. -/
theorem countP_cons_false {α : Type} (q : α → Bool) (l : List α) (a : α) (h : q a = false) :
    (a :: l).countP q = l.countP q := by
  rw [List.countP_cons, h]
  rfl

/-- An `Except` that reports ok is an `ok`. -/
theorem isOk_exists {ε α : Type} {x : Except ε α} (h : x.isOk = true) : ∃ a, x = .ok a := by
  cases x with
  | ok a => exact ⟨a, rfl⟩
  | error e => simp [Except.isOk, Except.toBool] at h

/-- The import loop over rows paired with their fingerprints: each row is
skipped iff its fingerprint is among `existing_ids`, and otherwise is
created or recorded as an error according to `row_create`. -/
theorem loop_on_pairs (c : CreateArgs → Except String Transaction) (account : Account)
    (source : String) (ids : List String) (pairs : List (Row × String))
    (hfp : ∀ p ∈ pairs, generate_imported_id p.1 source = p.2) :
    importLoop c account source ids true (pairs.map Prod.fst) =
      { imported := (pairs.filterMap (fun p => if ids.contains p.2 then none
          else (row_create c account p.1 p.2).toOption)).length,
        skipped := pairs.countP (fun p => ids.contains p.2),
        errors := pairs.filterMap (fun p => if ids.contains p.2 then none
          else match row_create c account p.1 p.2 with
               | .ok _ => none
               | .error e => some (rowErrorEntry p.1 e)),
        new_transactions := pairs.filterMap (fun p => if ids.contains p.2 then none
          else (row_create c account p.1 p.2).toOption) } := by
  rw [importLoop_eq]
  have hcls : ∀ p ∈ pairs, classifyRow c account source ids true p.1 =
      (if ids.contains p.2 then .dup
       else match row_create c account p.1 p.2 with
            | .ok tx => .created tx
            | .error e => .failed (rowErrorEntry p.1 e)) := by
    intro p hp
    simp [classifyRow, hfp p hp]
  have htx : (pairs.map Prod.fst).filterMap
      (fun r => outcomeTx? (classifyRow c account source ids true r)) =
      pairs.filterMap (fun p => if ids.contains p.2 then none
        else (row_create c account p.1 p.2).toOption) := by
    rw [List.filterMap_map]
    apply List.filterMap_congr
    intro p hp
    show outcomeTx? (classifyRow c account source ids true p.1) = _
    rw [hcls p hp]
    cases hcont : ids.contains p.2 with
    | true => simp [outcomeTx?]
    | false =>
      cases hc : row_create c account p.1 p.2 <;> simp [outcomeTx?, Except.toOption]
  have herr : (pairs.map Prod.fst).filterMap
      (fun r => outcomeErr? (classifyRow c account source ids true r)) =
      pairs.filterMap (fun p => if ids.contains p.2 then none
        else match row_create c account p.1 p.2 with
             | .ok _ => none
             | .error e => some (rowErrorEntry p.1 e)) := by
    rw [List.filterMap_map]
    apply List.filterMap_congr
    intro p hp
    show outcomeErr? (classifyRow c account source ids true p.1) = _
    rw [hcls p hp]
    cases hcont : ids.contains p.2 with
    | true => simp [outcomeErr?]
    | false =>
      cases hc : row_create c account p.1 p.2 <;> simp [outcomeErr?]
  have hsk : (pairs.map Prod.fst).countP
      (fun r => outcomeIsDup (classifyRow c account source ids true r)) =
      pairs.countP (fun p => ids.contains p.2) := by
    rw [List.countP_map]
    apply List.countP_congr
    intro p hp
    show (outcomeIsDup (classifyRow c account source ids true p.1) = true) ↔ _
    rw [hcls p hp]
    cases hcont : ids.contains p.2 with
    | true => simp [outcomeIsDup]
    | false =>
      cases hc : row_create c account p.1 p.2 <;> simp [outcomeIsDup]
  rw [htx, herr, hsk]

/-! ## The claims -/

/-- C1 (amended): if a first run over an empty ledger imports every row
without row errors, then a second run over the same CSV — against a
ledger holding exactly the fingerprints created by the first run — skips
every row: `skipped = row_count`, `imported = 0`.  (As stated the claim
fails when the first run has row errors: see the counterexample, where a
row with an unparseable date errors in both runs and is never skipped.) -/
theorem second_run_skips_all
    (env1 env2 : SyncEnv) (csv_path source : String)
    (account_name : Option String) (account_mapping : Option (List (String × String)))
    (accName : String) (csv : Csv) (account1 account2 : Account)
    (r1 : SyncResult) (t1 : List Transaction)
    (hres : resolve_account_name account_name account_mapping source = some accName)
    (hne : accName ≠ "")
    (hpath1 : envPathOk env1 accName csv account1)
    (hpath2 : envPathOk env2 accName csv account2)
    (hempty : existingIdsOf env1 = [])
    (hrun1 : sync_csv_to_actual env1 csv_path source account_name account_mapping = .ok (r1, t1))
    (herr : r1.errors = [])
    (hids2 : existingIdsOf env2 =
      createdFingerprints env1.create account1 source (existingIdsOf env1)
        (csv.columns.contains "Saldo") csv.rows) :
    ∃ r2 t2,
      sync_csv_to_actual env2 csv_path source account_name account_mapping = .ok (r2, t2) ∧
      r2.success = true ∧ r2.imported = 0 ∧ r2.skipped = csv.rows.length ∧
      r2.errors = [] ∧ t2 = [] := by
  obtain ⟨hs1, hi1, hk1, he1, ht1⟩ := sync_path_fields env1 csv_path source account_name
    account_mapping accName csv account1 r1 t1 hres hne hpath1 hrun1
  rw [herr, importLoop_eq] at he1
  simp only [] at he1
  have hfm : ∀ row ∈ csv.rows,
      outcomeErr? (classifyRow env1.create account1 source (existingIdsOf env1)
        (csv.columns.contains "Saldo") row) = none :=
    List.filterMap_eq_nil_iff.mp he1.symm
  have hcn : ∀ x : String, ([] : List String).contains x = false := fun _ => rfl
  -- in run 1, every row was created (or the CSV is empty)
  have hcf : createdFingerprints env1.create account1 source (existingIdsOf env1)
      (csv.columns.contains "Saldo") csv.rows =
      csv.rows.map (fun row => generate_imported_id row source) := by
    apply filterMap_congr_map
    intro row hrow
    have herr0 := hfm row hrow
    by_cases hsal : csv.columns.contains "Saldo" = true
    · rw [hempty, hsal] at herr0 ⊢
      cases hc : row_create env1.create account1 row (generate_imported_id row source) with
      | ok tx => simp [classifyRow, hc, hcn]
      | error e => simp [classifyRow, hc, hcn, outcomeErr?] at herr0
    · have hsal' : csv.columns.contains "Saldo" = false := by
        cases h : csv.columns.contains "Saldo"
        · rfl
        · exact absurd h hsal
      rw [hsal'] at herr0
      simp [classifyRow, outcomeErr?] at herr0
  -- in run 2, every row is a duplicate
  have hall2 : ∀ row ∈ csv.rows, classifyRow env2.create account2 source (existingIdsOf env2)
      (csv.columns.contains "Saldo") row = .dup := by
    intro row hrow
    have hmem : generate_imported_id row source ∈ existingIdsOf env2 := by
      rw [hids2, hcf]
      exact List.mem_map_of_mem _ hrow
    have hcont : (existingIdsOf env2).contains (generate_imported_id row source) = true :=
      List.elem_iff.mpr hmem
    have hsal : csv.columns.contains "Saldo" = true := by
      by_contra hx
      have hsal' : csv.columns.contains "Saldo" = false := by
        cases h : csv.columns.contains "Saldo"
        · rfl
        · exact absurd h hx
      have herr0 := hfm row hrow
      rw [hsal'] at herr0
      simp [classifyRow, outcomeErr?] at herr0
    have hsalm : "Saldo" ∈ csv.columns := by simpa using hsal
    simp [classifyRow, hsalm, hmem]
  have himp : (importLoop env2.create account2 source (existingIdsOf env2)
      (csv.columns.contains "Saldo") csv.rows).imported = 0 := by
    rw [importLoop_eq]
    simp only []
    rw [List.filterMap_eq_nil_iff.mpr (fun row hrow => by rw [hall2 row hrow]; rfl)]
    rfl
  have hnew : (importLoop env2.create account2 source (existingIdsOf env2)
      (csv.columns.contains "Saldo") csv.rows).new_transactions = [] := by
    rw [importLoop_eq]
    simp only []
    exact List.filterMap_eq_nil_iff.mpr (fun row hrow => by rw [hall2 row hrow]; rfl)
  have hsk : (importLoop env2.create account2 source (existingIdsOf env2)
      (csv.columns.contains "Saldo") csv.rows).skipped = csv.rows.length := by
    rw [importLoop_eq]
    simp only []
    exact List.countP_eq_length.mpr (fun row hrow => by rw [hall2 row hrow]; rfl)
  have herr2 : (importLoop env2.create account2 source (existingIdsOf env2)
      (csv.columns.contains "Saldo") csv.rows).errors = [] := by
    rw [importLoop_eq]
    simp only []
    exact List.filterMap_eq_nil_iff.mpr (fun row hrow => by rw [hall2 row hrow]; rfl)
  exact ⟨_, _, sync_path env2 csv_path source account_name account_mapping accName csv
    account2 hres hne hpath2, rfl, himp, hsk, herr2, hnew⟩

/-- C10: whenever `sync_csv_to_actual` reaches the per-row loop and
returns `success = true`, every data row lands in exactly one bucket:
`imported + skipped + length errors = row_count`. -/
theorem sync_row_accounting (env : SyncEnv) (csv_path source : String)
    (account_name : Option String) (account_mapping : Option (List (String × String)))
    (csv : Csv) (r : SyncResult) (t : List Transaction)
    (hread : env.readCsv = .ok csv)
    (hrun : sync_csv_to_actual env csv_path source account_name account_mapping = .ok (r, t))
    (hs : r.success = true) :
    r.imported + r.skipped + r.errors.length = csv.rows.length := by
  obtain ⟨accName, account, hres, hacc, hcommit, hi, hsk, he, ht⟩ :=
    sync_success_inv env csv_path source account_name account_mapping csv r t hread hrun hs
  rw [hi, hsk, he, importLoop_eq]
  simp only []
  exact outcome_partition _ csv.rows

/-- C7: on every successful run, the transactions handed to the
categorization ruleset are exactly the `new_transactions` created by this
run's import loop, and each of them arose from a row whose fingerprint
was not among the existing ledger fingerprints — no pre-existing
(skipped) transaction is ever passed to a rule. -/
theorem rules_only_new (env : SyncEnv) (csv_path source : String)
    (account_name : Option String) (account_mapping : Option (List (String × String)))
    (csv : Csv) (r : SyncResult) (t : List Transaction)
    (hread : env.readCsv = .ok csv)
    (hrun : sync_csv_to_actual env csv_path source account_name account_mapping = .ok (r, t))
    (hs : r.success = true) :
    ∃ accName account,
      resolve_account_name account_name account_mapping source = some accName ∧
      get_account_by_name env.accounts accName = some account ∧
      t = newTransactionsOf env.create account source (existingIdsOf env)
        (csv.columns.contains "Saldo") csv.rows ∧
      ∀ tx ∈ t, ∃ row ∈ csv.rows,
        (existingIdsOf env).contains (generate_imported_id row source) = false ∧
        row_create env.create account row (generate_imported_id row source) = .ok tx := by
  obtain ⟨accName, account, hres, hacc, hcommit, hi, hsk, he, ht⟩ :=
    sync_success_inv env csv_path source account_name account_mapping csv r t hread hrun hs
  rw [importLoop_eq] at ht
  simp only [] at ht
  refine ⟨accName, account, hres, hacc, ht, ?_⟩
  intro tx htx
  rw [ht, List.mem_filterMap] at htx
  obtain ⟨row, hrow, hcl⟩ := htx
  refine ⟨row, hrow, ?_⟩
  by_cases hsal : csv.columns.contains "Saldo" = true
  · rw [hsal] at hcl
    cases hcont : (existingIdsOf env).contains (generate_imported_id row source) with
    | true =>
      exfalso
      have hcontm : generate_imported_id row source ∈ existingIdsOf env :=
        List.elem_iff.mp hcont
      have hsalm : "Saldo" ∈ csv.columns := by simpa using hsal
      simp [classifyRow, hsalm, hcontm, outcomeTx?] at hcl
    | false =>
      refine ⟨rfl, ?_⟩
      cases hc : row_create env.create account row (generate_imported_id row source) with
      | ok tx' =>
        have hsalm : "Saldo" ∈ csv.columns := by simpa using hsal
        have hcontm : generate_imported_id row source ∉ existingIdsOf env := by
          intro hx
          have hxx : (existingIdsOf env).contains (generate_imported_id row source) = true :=
            List.elem_iff.mpr hx
          rw [hxx] at hcont
          cases hcont
        simp [classifyRow, hsalm, hcontm, hc, outcomeTx?] at hcl
        rw [hcl]
      | error e =>
        exfalso
        have hsalm : "Saldo" ∈ csv.columns := by simpa using hsal
        have hcontm : generate_imported_id row source ∉ existingIdsOf env := by
          intro hx
          have hxx : (existingIdsOf env).contains (generate_imported_id row source) = true :=
            List.elem_iff.mpr hx
          rw [hxx] at hcont
          cases hcont
        simp [classifyRow, hsalm, hcontm, hc, outcomeTx?] at hcl
  · exfalso
    have hsal' : csv.columns.contains "Saldo" = false := by
      cases h : csv.columns.contains "Saldo"
      · rfl
      · exact absurd h hsal
    rw [hsal'] at hcl
    simp [classifyRow, outcomeTx?] at hcl

/-- C6: for a 10-row export of which 7 fingerprints already exist in the
ledger, the run yields `imported = 3, skipped = 7, success = true`; and
if exactly one of the 3 new rows raises during its own creation, that row
alone is recorded in `errors` (with its row reference and the message
truncated to 50 characters), the other 2 still import, and the run still
succeeds. -/
theorem mixed_batch (env : SyncEnv) (csv_path source : String)
    (account_name : Option String) (account_mapping : Option (List (String × String)))
    (accName : String) (csv : Csv) (account : Account) (fps : List String)
    (createB : CreateArgs → Except String Transaction)
    (l₁ l₂ : List (Row × String)) (badRow : Row) (badFp : String) (eBad : String)
    (hres : resolve_account_name account_name account_mapping source = some accName)
    (hne : accName ≠ "")
    (hpath : envPathOk env accName csv account)
    (hsal : csv.columns.contains "Saldo" = true)
    (hfps : csv.rows.map (fun r => generate_imported_id r source) = fps)
    (hlen : csv.rows.length = 10)
    (hdup : (fps.filter (fun f => (existingIdsOf env).contains f)).length = 7)
    (hokA : ∀ p ∈ csv.rows.zip fps, (existingIdsOf env).contains p.2 = false →
      (row_create env.create account p.1 p.2).isOk = true)
    (hsplit : csv.rows.zip fps = l₁ ++ (badRow, badFp) :: l₂)
    (hbadNew : (existingIdsOf env).contains badFp = false)
    (hbadFail : row_create createB account badRow badFp = .error eBad)
    (hokB : ∀ p ∈ l₁ ++ l₂, (existingIdsOf env).contains p.2 = false →
      (row_create createB account p.1 p.2).isOk = true) :
    (∃ rA tA, sync_csv_to_actual env csv_path source account_name account_mapping =
        .ok (rA, tA) ∧
      rA.success = true ∧ rA.imported = 3 ∧ rA.skipped = 7 ∧ rA.errors = []) ∧
    (∃ rB tB, sync_csv_to_actual { env with create := createB } csv_path source account_name
        account_mapping = .ok (rB, tB) ∧
      rB.success = true ∧ rB.imported = 2 ∧ rB.skipped = 7 ∧
      rB.errors = [rowErrorEntry badRow eBad]) := by
  have hlenfps : fps.length = csv.rows.length := by rw [← hfps]; simp
  have hpairs_fst : (csv.rows.zip fps).map Prod.fst = csv.rows :=
    List.map_fst_zip _ _ (by rw [hlenfps])
  have hfp_pair : ∀ p ∈ csv.rows.zip fps, generate_imported_id p.1 source = p.2 := by
    rw [← hfps]
    exact zip_map_self _ _
  have hpairs_len : (csv.rows.zip fps).length = 10 := by
    rw [List.length_zip, hlen, hlenfps, hlen]
    decide
  have hdup_count : (csv.rows.zip fps).countP
      (fun p => (existingIdsOf env).contains p.2) = 7 := by
    have h1 : fps.countP (fun f => (existingIdsOf env).contains f) = 7 := by
      rw [List.countP_eq_length_filter]
      exact hdup
    calc (csv.rows.zip fps).countP (fun p => (existingIdsOf env).contains p.2)
        = ((csv.rows.zip fps).map Prod.snd).countP
            (fun f => (existingIdsOf env).contains f) := by rw [List.countP_map]; rfl
      _ = fps.countP (fun f => (existingIdsOf env).contains f) := by
            rw [List.map_snd_zip _ _ (by rw [hlenfps])]
      _ = 7 := h1
  have hnew_count : (csv.rows.zip fps).countP
      (fun p => !((existingIdsOf env).contains p.2)) = 3 := by
    have h0 := countP_not_add
      (fun p : Row × String => (existingIdsOf env).contains p.2) (csv.rows.zip fps)
    rw [hpairs_len, hdup_count] at h0
    omega
  -- scenario A loop record
  have hLA := loop_on_pairs env.create account source (existingIdsOf env)
    (csv.rows.zip fps) hfp_pair
  rw [hpairs_fst] at hLA
  have himpA : (importLoop env.create account source (existingIdsOf env) true csv.rows).imported
      = 3 := by
    rw [hLA]
    show ((csv.rows.zip fps).filterMap _).length = 3
    rw [List.length_filterMap_eq_countP]
    rw [List.countP_congr (q := fun p => !((existingIdsOf env).contains p.2)) ?_]
    · exact hnew_count
    · intro p hp
      cases hcont : (existingIdsOf env).contains p.2 with
      | true => simp [mem_of_containsEq hcont]
      | false =>
        obtain ⟨tx, htx⟩ := isOk_exists (hokA p hp hcont)
        simp [not_mem_of_containsEq hcont, htx, Except.toOption]
  have hskA : (importLoop env.create account source (existingIdsOf env) true csv.rows).skipped
      = 7 := by
    rw [hLA]
    exact hdup_count
  have herrA : (importLoop env.create account source (existingIdsOf env) true csv.rows).errors
      = [] := by
    rw [hLA]
    show (csv.rows.zip fps).filterMap _ = []
    rw [List.filterMap_eq_nil_iff]
    intro p hp
    cases hcont : (existingIdsOf env).contains p.2 with
    | true => simp [mem_of_containsEq hcont]
    | false =>
      obtain ⟨tx, htx⟩ := isOk_exists (hokA p hp hcont)
      simp [not_mem_of_containsEq hcont, htx]
  constructor
  · refine ⟨_, _, sync_path env csv_path source account_name account_mapping accName csv
      account hres hne hpath, rfl, ?_, ?_, ?_⟩
    · show (importLoop env.create account source (existingIdsOf env)
        (csv.columns.contains "Saldo") csv.rows).imported = 3
      rw [hsal]
      exact himpA
    · show (importLoop env.create account source (existingIdsOf env)
        (csv.columns.contains "Saldo") csv.rows).skipped = 7
      rw [hsal]
      exact hskA
    · show (importLoop env.create account source (existingIdsOf env)
        (csv.columns.contains "Saldo") csv.rows).errors = []
      rw [hsal]
      exact herrA
  · -- scenario B
    have hLB := loop_on_pairs createB account source (existingIdsOf env)
      (csv.rows.zip fps) hfp_pair
    rw [hpairs_fst] at hLB
    have hmemB : ∀ p ∈ l₁ ++ l₂, p ∈ csv.rows.zip fps := by
      intro p hp
      rw [hsplit]
      rcases List.mem_append.mp hp with h | h
      · exact List.mem_append.mpr (Or.inl h)
      · exact List.mem_append.mpr (Or.inr (List.mem_cons_of_mem _ h))
    have hq_bad : (fun p : Row × String => !(existingIdsOf env).contains p.2) (badRow, badFp)
        = true := by
      show (!(existingIdsOf env).contains badFp) = true
      rw [hbadNew]
      rfl
    have hnew_split : (l₁ ++ l₂).countP (fun p => !(existingIdsOf env).contains p.2) = 2 := by
      rw [hsplit, List.countP_append,
        countP_cons_true (fun p : Row × String => !(existingIdsOf env).contains p.2)
          l₂ (badRow, badFp) hq_bad] at hnew_count
      rw [List.countP_append]
      omega
    have himpB : (importLoop createB account source (existingIdsOf env) true csv.rows).imported
        = 2 := by
      rw [hLB]
      show ((csv.rows.zip fps).filterMap _).length = 2
      rw [List.length_filterMap_eq_countP]
      have hqB_bad : (fun p : Row × String => ((if (existingIdsOf env).contains p.2 then none
          else (row_create createB account p.1 p.2).toOption) : Option Transaction).isSome)
          (badRow, badFp) = false := by
        show ((if (existingIdsOf env).contains badFp then none
          else (row_create createB account badRow badFp).toOption) : Option Transaction).isSome
          = false
        rw [hbadNew, hbadFail]
        rfl
      rw [hsplit, List.countP_append,
        countP_cons_false (fun p : Row × String => ((if (existingIdsOf env).contains p.2
          then none else (row_create createB account p.1 p.2).toOption) :
          Option Transaction).isSome) l₂ (badRow, badFp) hqB_bad]
      have hcongr : ∀ p ∈ l₁ ++ l₂,
          (((if (existingIdsOf env).contains p.2 then none
            else (row_create createB account p.1 p.2).toOption) : Option Transaction).isSome) =
          (!((existingIdsOf env).contains p.2)) := by
        intro p hp
        cases hcont : (existingIdsOf env).contains p.2 with
        | true => simp [mem_of_containsEq hcont]
        | false =>
          obtain ⟨tx, htx⟩ := isOk_exists (hokB p hp hcont)
          simp [not_mem_of_containsEq hcont, htx, Except.toOption]
      have hc1 : l₁.countP (fun p => ((if (existingIdsOf env).contains p.2 then none
          else (row_create createB account p.1 p.2).toOption) : Option Transaction).isSome) =
          l₁.countP (fun p => !((existingIdsOf env).contains p.2)) := by
        apply List.countP_congr
        intro p hp
        rw [hcongr p (List.mem_append.mpr (Or.inl hp))]
      have hc2 : l₂.countP (fun p => ((if (existingIdsOf env).contains p.2 then none
          else (row_create createB account p.1 p.2).toOption) : Option Transaction).isSome) =
          l₂.countP (fun p => !((existingIdsOf env).contains p.2)) := by
        apply List.countP_congr
        intro p hp
        rw [hcongr p (List.mem_append.mpr (Or.inr hp))]
      rw [List.countP_append] at hnew_split
      rw [hc1, hc2]
      omega
    have hskB : (importLoop createB account source (existingIdsOf env) true csv.rows).skipped
        = 7 := by
      rw [hLB]
      exact hdup_count
    have herrB : (importLoop createB account source (existingIdsOf env) true csv.rows).errors
        = [rowErrorEntry badRow eBad] := by
      rw [hLB]
      show (csv.rows.zip fps).filterMap _ = _
      rw [hsplit, List.filterMap_append, List.filterMap_cons]
      have h1 : l₁.filterMap (fun p => if (existingIdsOf env).contains p.2 then none
          else match row_create createB account p.1 p.2 with
               | .ok _ => none
               | .error e => some (rowErrorEntry p.1 e)) = [] := by
        rw [List.filterMap_eq_nil_iff]
        intro p hp
        cases hcont : (existingIdsOf env).contains p.2 with
        | true => simp [mem_of_containsEq hcont]
        | false =>
          obtain ⟨tx, htx⟩ := isOk_exists (hokB p (List.mem_append.mpr (Or.inl hp)) hcont)
          simp [not_mem_of_containsEq hcont, htx]
      have h2 : l₂.filterMap (fun p => if (existingIdsOf env).contains p.2 then none
          else match row_create createB account p.1 p.2 with
               | .ok _ => none
               | .error e => some (rowErrorEntry p.1 e)) = [] := by
        rw [List.filterMap_eq_nil_iff]
        intro p hp
        cases hcont : (existingIdsOf env).contains p.2 with
        | true => simp [mem_of_containsEq hcont]
        | false =>
          obtain ⟨tx, htx⟩ := isOk_exists (hokB p (List.mem_append.mpr (Or.inr hp)) hcont)
          simp [not_mem_of_containsEq hcont, htx]
      rw [h1, h2]
      simp [not_mem_of_containsEq hbadNew, hbadFail]
    have hpathB : envPathOk { env with create := createB } accName csv account := hpath
    refine ⟨_, _, sync_path { env with create := createB } csv_path source account_name
      account_mapping accName csv account hres hne hpathB, rfl, ?_, ?_, ?_⟩
    · show (importLoop createB account source (existingIdsOf env)
        (csv.columns.contains "Saldo") csv.rows).imported = 2
      rw [hsal]
      exact himpB
    · show (importLoop createB account source (existingIdsOf env)
        (csv.columns.contains "Saldo") csv.rows).skipped = 7
      rw [hsal]
      exact hskB
    · show (importLoop createB account source (existingIdsOf env)
        (csv.columns.contains "Saldo") csv.rows).errors = [rowErrorEntry badRow eBad]
      rw [hsal]
      exact herrB



/-- C2 (amended): `generate_imported_id` is a deterministic function of the
source and the five hashed fields — it ignores `Nº Orden` — and returns a
32-character lowercase-hex string; two rows get different fingerprints
whenever their truncated digests differ.  (The unconditional sensitivity
claim — any differing field gives a different fingerprint — is refuted by
`fingerprint_pipe_collision`: the fields are joined with `|` and a field
containing `|` can make two different rows produce the same
`unique_str`.) -/
theorem fingerprint_determinism (r1 r2 : Row) (source : String) :
    (r1.fechaOper = r2.fechaOper → r1.concepto = r2.concepto →
      r1.descripcion = r2.descripcion → r1.importe = r2.importe → r1.saldo = r2.saldo →
      generate_imported_id r1 source = generate_imported_id r2 source) ∧
    (generate_imported_id r1 source).length = 32 ∧
    (∀ c ∈ (generate_imported_id r1 source).data, c ∈ ("0123456789abcdef" : String).data) ∧
    (pyTake (sha256hex (unique_str r1 source)) 32 ≠ pyTake (sha256hex (unique_str r2 source)) 32 →
      generate_imported_id r1 source ≠ generate_imported_id r2 source) := by
  refine ⟨?_, ?_, ?_, fun h => h⟩
  · intro h1 h2 h3 h4 h5
    unfold generate_imported_id unique_str
    rw [h1, h2, h3, h4, h5]
  · rw [generate_imported_id_eq, pyTake_length, sha256hex_data_length]
    decide
  · intro c hc
    rw [generate_imported_id_eq, pyTake_data] at hc
    exact sha256hex_mem_hex _ c (List.take_subset _ _ hc)

/-- C2 witness: evaluating `fingerprint_determinism` at rows that agree on
all hashed fields (differing in `Nº Orden`), and at rows whose digests
differ. -/
theorem fingerprint_determinism_witness :
    generate_imported_id detRowA "ibercaja" = generate_imported_id detRowB "ibercaja" ∧
    (generate_imported_id detRowA "ibercaja").length = 32 ∧
    generate_imported_id detRowA "ibercaja" ≠ generate_imported_id detRowC "ibercaja" :=
  ⟨(fingerprint_determinism detRowA detRowB "ibercaja").1 rfl rfl rfl rfl rfl,
   (fingerprint_determinism detRowA detRowA "ibercaja").2.1,
   (fingerprint_determinism detRowA detRowC "ibercaja").2.2.2 (by decide)⟩

/-- C2 counterexample: `pipeRowA` and `pipeRowB` differ in both `Concepto`
and `Descripción`, yet their `|`-joined `unique_str`s coincide — the
separator occurs inside a field — so their fingerprints are equal,
refuting "any differing field ⇒ different fingerprint". -/
theorem fingerprint_pipe_collision :
    pipeRowA.concepto ≠ pipeRowB.concepto ∧
    pipeRowA.descripcion ≠ pipeRowB.descripcion ∧
    generate_imported_id pipeRowA "ibercaja" = generate_imported_id pipeRowB "ibercaja" := by
  refine ⟨by decide, by decide, ?_⟩
  have h : unique_str pipeRowA "ibercaja" = unique_str pipeRowB "ibercaja" := by decide
  unfold generate_imported_id
  rw [h]

/-- C3 (amended): once `pd.read_csv` has returned, `sync_csv_to_actual`
never raises — every remaining failure path (missing mapping, missing
file, missing columns, connection failure, account not found, per-row
failure, commit failure) yields a `SyncResult`, and every such result
with `success = false` carries a non-empty message. -/
theorem sync_no_raise_after_read (env : SyncEnv) (csv_path source : String)
    (account_name : Option String) (account_mapping : Option (List (String × String)))
    (csv : Csv) (hread : env.readCsv = .ok csv) :
    ∃ res, sync_csv_to_actual env csv_path source account_name account_mapping = .ok res ∧
      (res.1.success = false → 0 < res.1.message.length) := by
  unfold sync_csv_to_actual
  simp only [hread]
  split
  · exact ⟨_, rfl, fun _ => length_append_pos _ _ (by decide)⟩
  split
  · exact ⟨_, rfl, fun _ => length_append_pos _ _ (by decide)⟩
  split
  · exact ⟨_, rfl, fun _ => length_append_pos _ _
      (length_append_pos _ _ (length_append_pos _ _ (by decide)))⟩
  split
  · exact ⟨_, rfl, fun _ => length_append_pos _ _ (by decide)⟩
  split
  · exact ⟨_, rfl, fun _ => length_append_pos _ _ (by decide)⟩
  split
  · exact ⟨_, rfl, fun _ => length_append_pos _ _ (length_append_pos _ _ (by decide))⟩
  split
  · exact ⟨_, rfl, fun _ => length_append_pos _ _ (by decide)⟩
  · exact ⟨_, rfl, fun h => nomatch h⟩

/-- C3 witness: `sync_no_raise_after_read` evaluated on the healthy
one-row environment. -/
theorem sync_no_raise_after_read_witness :
    ∃ res, sync_csv_to_actual c1Env "./d.csv" "ibercaja" none none = .ok res ∧
      (res.1.success = false → 0 < res.1.message.length) :=
  sync_no_raise_after_read c1Env "./d.csv" "ibercaja" none none c1Csv rfl

/-- C3 counterexample: with the CSV file present but malformed,
`pd.read_csv` raises before the `try` block begins, and the exception
escapes `sync_csv_to_actual` instead of being converted into a
`SyncResult` — refuting "the engine never raises past its boundary". -/
theorem sync_raises_on_malformed_csv :
    sync_csv_to_actual c3Env "./downloads/ibercaja/ibercaja_movements.csv" "ibercaja" none none =
      .error "Error tokenizing data. C error: EOF inside string starting at row 3" := by
  decide

/-- C4 (amended): for positions `[1,3,6]`, a disclosed string `"472"` makes
the `run` segment submit exactly the 3 digits `4`, `7`, `2` in that order;
but a disclosed string whose length differs from the number of positions
is *not* rejected — no length validation exists — and all of its digits
are submitted to the portal (here `"47"` submits 2 digits). -/
theorem pin_digits_submission (ui1 ui2 : String → String)
    (h1 : ui1 "PIN_DIGITS:1,3,6:" = "472") (h2 : ui2 "PIN_DIGITS:1,3,6:" = "47") :
    submit_pin_digits ui1 [1, 3, 6] = ['4', '7', '2'] ∧
    submit_pin_digits ui2 [1, 3, 6] = ['4', '7'] := by
  have hp : "PIN_DIGITS:" ++ String.intercalate "," (([1, 3, 6] : List Nat).map toString) ++ ":" =
      "PIN_DIGITS:1,3,6:" := by decide
  constructor
  · show (pyStrip (ui1 ("PIN_DIGITS:" ++
      String.intercalate "," (([1, 3, 6] : List Nat).map toString) ++ ":"))).data = _
    rw [hp, h1]
    decide
  · show (pyStrip (ui2 ("PIN_DIGITS:" ++
      String.intercalate "," (([1, 3, 6] : List Nat).map toString) ++ ":"))).data = _
    rw [hp, h2]
    decide

/-- C4 witness: `pin_digits_submission` evaluated at the constant UI
oracles. -/
theorem pin_digits_submission_witness :
    submit_pin_digits ui472 [1, 3, 6] = ['4', '7', '2'] ∧
    submit_pin_digits ui47 [1, 3, 6] = ['4', '7'] :=
  pin_digits_submission ui472 ui47 rfl rfl

/-- C4 counterexample: a disclosed string of length 2 for 3 announced
positions is silently submitted — 2 digits reach the portal — instead of
failing with a protocol error before any submission. -/
theorem pin_digits_no_length_validation :
    submit_pin_digits ui47 [1, 3, 6] = ['4', '7'] ∧
    (submit_pin_digits ui47 [1, 3, 6]).length ≠ ([1, 3, 6] : List Nat).length := by
  decide

/-- C5: `IbercajaScheduler.start` can never arm a timer, because it
self-deadlocks: it acquires the non-reentrant `threading.Lock` and then
calls `self.stop()`, which acquires the same lock again — so `start('1h')`
(and any later `start('3h')`) blocks forever instead of returning with one
armed timer.  `stop()` alone, by contrast, completes normally. -/
theorem scheduler_start_self_deadlock :
    sched_start 0 initialScheduler "1h" false = .error () ∧
    sched_start 0 initialScheduler "1h" true = .error () ∧
    sched_start 0 initialScheduler "3h" false = .error () ∧
    sched_start 0 initialScheduler "3h" true = .error () ∧
    sched_stop initialScheduler = .ok initialScheduler := by
  decide

/-- C8: the scheduler branch of `handle_ibercaja_action` refuses to start
with a specific message and no timer armed when the mapping (or either
credential) is missing; but once `save_mapping` has been called and all
prerequisites hold, the handler does not succeed — it blocks forever
inside `scheduler.start`'s self-deadlock. -/
theorem schedule_gating :
    handle_sched_interval c8BaseState initialScheduler 0 "sched_3h" =
      (.errorMsg "[ERROR] Configure sync mapping first (run sync once)", initialScheduler) ∧
    handle_sched_interval { c8BaseState with ibercaja_codigo := none } initialScheduler 0
      "sched_3h" =
      (.errorMsg "[ERROR] Store Ibercaja credentials first (run download once)",
       initialScheduler) ∧
    handle_sched_interval { c8BaseState with actual_password := none } initialScheduler 0
      "sched_3h" =
      (.errorMsg "[ERROR] Store Actual Budget password first (run sync once)",
       initialScheduler) ∧
    has_saved_mapping c8MappedState "ibercaja" = true ∧
    handle_sched_interval c8MappedState initialScheduler 0 "sched_3h" =
      (.blocked, initialScheduler) := by
  decide

/-- C9: any exception raised inside a scheduled run (browser download or
ledger sync) is caught by `_execute_sync` and stored in `last_result` as
`"ERROR: ..."`; `_run_and_schedule` returns normally to the timer thread
and, the scheduler still being enabled, arms exactly one next tick. -/
theorem scheduled_run_contains_exceptions (now : Nat) (env : AutoRunEnv) (s : SchedState)
    (k : String) (secs : Nat) (e : String)
    (hlock : s.lockHeld = false) (hen : s.enabled = true)
    (hkey : s.interval_key = some k) (hsecs : INTERVALS.lookup k = some secs)
    (hc1 : env.hasIbercajaCreds = true) (hc2 : env.hasActualCreds = true)
    (hc3 : env.hasMapping = true)
    (hraise : env.download = .error e ∨
      (env.download = .ok () ∧ env.latestCsv = true ∧ env.syncOutcome = .error e)) :
    sched_run_and_schedule now env s =
      .ok { s with last_run := some now, last_result := some ("ERROR: " ++ e),
                   lockHeld := false,
                   next_run := some (now + secs), timer := some s.nextTimerId,
                   pending := s.pending ++ [s.nextTimerId], nextTimerId := s.nextTimerId + 1 } := by
  have hexec : sched_execute_sync env = "ERROR: " ++ e := by
    rcases hraise with h | ⟨hd, hcsv, hs⟩ <;>
      simp [sched_execute_sync, hc1, hc2, hc3, *]
  simp [sched_run_and_schedule, hen, hlock, acquireLock, hexec, sched_schedule_next,
    hkey, hsecs, releaseLock]

/-- C9 witness: a download timeout during a scheduled run at the 3h
interval. -/
theorem scheduled_run_contains_exceptions_witness :
    sched_run_and_schedule 50 c9Env c9State =
      .ok { c9State with last_run := some 50,
                         last_result := some "ERROR: Page.goto: Timeout 30000ms exceeded.",
                         lockHeld := false,
                         next_run := some (50 + 10800), timer := some 1,
                         pending := [1], nextTimerId := 2 } :=
  scheduled_run_contains_exceptions 50 c9Env c9State "3h" 10800
    "Page.goto: Timeout 30000ms exceeded." rfl rfl rfl rfl rfl rfl rfl (Or.inl rfl)

/-- C1 witness: `second_run_skips_all` evaluated at the two-row CSV — the
first run imports both rows, the second run over the resulting ledger
skips both. -/
theorem second_run_skips_all_witness :
    ∃ r2 t2, sync_csv_to_actual wEnv2 "./d.csv" "ibercaja" none none = .ok (r2, t2) ∧
      r2.success = true ∧ r2.imported = 0 ∧ r2.skipped = wCsv.rows.length ∧
      r2.errors = [] ∧ t2 = [] :=
  second_run_skips_all wEnv1 wEnv2 "./d.csv" "ibercaja" none none "Ibercaja común" wCsv
    demoAccount demoAccount wRun1Result ([⟨7⟩, ⟨7⟩] : List Transaction) (by decide) (by decide)
    ⟨rfl, rfl, rfl, rfl, rfl, rfl, rfl⟩ ⟨rfl, rfl, rfl, rfl, rfl, rfl, rfl⟩
    rfl (by decide) rfl (by decide)

/-- C1 counterexample: a first run whose single row errors (unparseable
date) creates no fingerprint, so its second run — over the ledger state
the first run left behind, here unchanged — errors identically and skips
nothing: `skipped = 0 ≠ 1 = row_count`, refuting the claim as stated for
runs with row errors. -/
theorem second_run_error_counterexample :
    createdFingerprints c1Env.create demoAccount "ibercaja" (existingIdsOf c1Env)
      (c1Csv.columns.contains "Saldo") c1Csv.rows = [] ∧
    sync_csv_to_actual c1Env "./d.csv" "ibercaja" none none =
      .ok ({ success := true, imported := 0, skipped := 0, errors := [badDateEntry],
             message := "Synced to \x27Ibercaja común\x27: 0 imported, 0 skipped" }, []) ∧
    c1Csv.rows.length = 1 := by
  decide

/-- C10 witness: `sync_row_accounting` evaluated at the three-row CSV
(2 imported + 0 skipped + 1 error = 3 rows). -/
theorem sync_row_accounting_witness :
    c10Result.imported + c10Result.skipped + c10Result.errors.length = c10Csv.rows.length :=
  sync_row_accounting c10Env "./d.csv" "ibercaja" none none c10Csv c10Result
    ([⟨42⟩, ⟨42⟩] : List Transaction) rfl (by decide) rfl

/-- C7 witness: `rules_only_new` evaluated at the three-row CSV — the two
transactions handed to the ruleset are exactly the new ones. -/
theorem rules_only_new_witness :
    ∃ accName account,
      resolve_account_name (none : Option String) none "ibercaja" = some accName ∧
      get_account_by_name c10Env.accounts accName = some account ∧
      ([⟨42⟩, ⟨42⟩] : List Transaction) = newTransactionsOf c10Env.create account "ibercaja"
        (existingIdsOf c10Env) (c10Csv.columns.contains "Saldo") c10Csv.rows ∧
      ∀ tx ∈ ([⟨42⟩, ⟨42⟩] : List Transaction), ∃ row ∈ c10Csv.rows,
        (existingIdsOf c10Env).contains (generate_imported_id row "ibercaja") = false ∧
        row_create c10Env.create account row (generate_imported_id row "ibercaja") = .ok tx :=
  rules_only_new c10Env "./d.csv" "ibercaja" none none c10Csv c10Result
    ([⟨42⟩, ⟨42⟩] : List Transaction) rfl (by decide) rfl

/-- C6 witness: `mixed_batch` evaluated at the ten-row CSV with seven
pre-existing fingerprints, in both scenarios. -/
theorem mixed_batch_witness :
    (∃ rA tA, sync_csv_to_actual c6Env "./d.csv" "ibercaja" none none = .ok (rA, tA) ∧
      rA.success = true ∧ rA.imported = 3 ∧ rA.skipped = 7 ∧ rA.errors = []) ∧
    (∃ rB tB, sync_csv_to_actual { c6Env with create := c6CreateB } "./d.csv" "ibercaja" none
        none = .ok (rB, tB) ∧
      rB.success = true ∧ rB.imported = 2 ∧ rB.skipped = 7 ∧
      rB.errors = [rowErrorEntry c6Row9 "Invalid field in row"]) :=
  mixed_batch c6Env "./d.csv" "ibercaja" none none "Ibercaja común" c6Csv demoAccount c6Fps
    c6CreateB ((c6Csv.rows.zip c6Fps).take 8) ((c6Csv.rows.zip c6Fps).drop 9) c6Row9 c6BadFp
    "Invalid field in row"
    (by decide) (by decide) ⟨rfl, rfl, rfl, rfl, rfl, rfl, rfl⟩ (by decide) (by decide)
    (by decide) (by decide) (by decide) (by decide) (by decide) (by decide) (by decide)

end BankSync
